import Mathlib

/-!
Verification of the ICT signal engine (src/core/technical_analysis.py,
class RealICTAnalyzer) against its natural-language specification.

The engine is shallowly embedded over exact rationals: every price,
indicator value and score is a `ℚ` (the Python floats are IEEE doubles;
none of the verified properties is sensitive to rounding at that scale,
and the decision thresholds are all exact decimal constants).  Bars carry
their DatetimeIndex timestamp as epoch seconds (`ts : ℕ`); the wall clock
enters the engine only through `datetime.now()` / `datetime.utcnow()`,
modelled as a single `now : ℕ` parameter counting minutes since midnight
UTC.  Python dictionaries keyed by fixed strings become structures; keys
that can be absent become `Option` fields.  `try/except` fallbacks are
modelled by the explicit branch that produces them (noted per function).
-/

namespace ICT

/-- One OHLCV bar.  `ts` is the bar's DatetimeIndex timestamp in epoch
seconds; `open'` models the source's `Open` column (`open` is a Lean
keyword). -/
structure Bar where
  ts : ℕ
  open' : ℚ
  high : ℚ
  low : ℚ
  close : ℚ
  volume : ℚ
deriving DecidableEq, Repr

instance : Inhabited Bar := ⟨⟨0, 0, 0, 0, 0, 0⟩⟩

/-- Python's `round` to an integer: round half to even. -/
def roundHalfEven (q : ℚ) : ℤ :=
  let f := ⌊q⌋
  if q - f < 1/2 then f
  else if 1/2 < q - f then f + 1
  else if f % 2 = 0 then f else f + 1

/-- Python's `round(x, n)` on exact rationals. -/
def pyRound (q : ℚ) (n : ℕ) : ℚ := (roundHalfEven (q * 10 ^ n) : ℚ) / 10 ^ n

/-- Row access by position (`data.iloc[i]`); positions are always in range
where the source uses them. -/
def nthBar (bars : List Bar) (i : ℕ) : Bar := bars.getD i default

/-- `data['Close'].iloc[-1]`. -/
def lastClose (bars : List Bar) : ℚ := (bars.getLast?.getD default).close

/-- Python's `lst[-n:]`. -/
def pyTakeLast (n : ℕ) (l : List α) : List α := l.drop (l.length - n)

/-- Mean of a list of rationals (`Series.mean()` over a full window). -/
def listMean (l : List ℚ) : ℚ := l.sum / l.length

/-- ta's true range of a bar given the previous close:
`max(high - low, |high - prev_close|, |low - prev_close|)`. -/
def trueRange (prevClose : ℚ) (b : Bar) : ℚ :=
  max (b.high - b.low) (max |b.high - prevClose| |b.low - prevClose|)

/-- True ranges of the bars after the first, threaded with the previous
close. -/
def trueRangesFrom (prev : Bar) : List Bar → List ℚ
  | [] => []
  | b :: bs => trueRange prev.close b :: trueRangesFrom b bs

/-- The true-range series.  The first row has no previous close (pandas
`shift(1)` gives NaN there and the row-wise `max` skips it), so it is just
`high - low`. -/
def trueRanges : List Bar → List ℚ
  | [] => []
  | b :: bs => (b.high - b.low) :: trueRangesFrom b bs

/-- Final value of ta's `AverageTrueRange(..., window=14).average_true_range()`:
the value at position 13 is the mean of the first 14 true ranges and every
later position applies Wilder smoothing `(prev*13 + tr)/14`.  ta's
construction writes into position `window - 1` of a length-`n` array and
raises `IndexError` for `n < 14`; `find_fair_value_gaps` swallows that in
its `except` and returns `[]`, so this value is only ever read for series
of at least 14 bars. -/
def atrLast (bars : List Bar) : ℚ :=
  let trs := trueRanges bars
  (trs.drop 14).foldl (fun a tr => (a * 13 + tr) / 14) ((trs.take 14).sum / 14)

/-- One fair value gap, mirroring the dict built in `find_fair_value_gaps`.
`gap_size` is stored rounded to 2 decimals (the raw size is `high - low`);
`created_*` are the three creating bars' timestamps; `current_fill` is the
key `_get_active_fvgs` adds later (0 until then). -/
structure FVG where
  type : String
  high : ℚ
  low : ℚ
  gap_size : ℚ
  timestamp : ℕ
  momentum_strength : ℚ
  filled : Bool
  fill_percentage : ℚ
  created_prev : ℕ
  created_curr : ℕ
  created_next : ℕ
  current_fill : ℚ
deriving DecidableEq, Repr

/-- `_calculate_fvg_momentum`: net move times same-direction-candle fraction
over the window `[gap_index-3, gap_index+4)`, scaled by 10 and clamped to
[0, 100].  A zero first open raises `ZeroDivisionError` in the source,
whose `except` returns 50. -/
def calcFVGMomentum (bars : List Bar) (gapIndex : ℕ) (gapType : String) : ℚ :=
  let start := gapIndex - 3
  let stop := min bars.length (gapIndex + 4)
  let md := (bars.drop start).take (stop - start)
  let firstOpen := (md.headD default).open'
  if firstOpen = 0 then 50
  else
    let lastC := (md.getLast?.getD default).close
    let m :=
      if gapType = "BULLISH" then
        ((lastC - firstOpen) / firstOpen) * 100 *
          (((md.filter (fun b => b.open' < b.close)).length : ℚ) / (md.length : ℚ))
      else
        ((firstOpen - lastC) / firstOpen) * 100 *
          (((md.filter (fun b => b.close < b.open')).length : ℚ) / (md.length : ℚ))
    max 0 (min 100 (m * 10))

/-- `_calculate_fvg_fill_percentage`: how much of the gap the current price
has filled.  For a `BULLISH_FVG` the price fills it moving up from `low`
to `high`; for a `BEARISH_FVG` moving down from `high` to `low`.  The two
boundary branches return before the division, so the source's `except`
(division by zero when `high = low`) is unreachable. -/
def calcFVGFillPercentage (type : String) (low high currentPrice : ℚ) : ℚ :=
  let gapRange := high - low
  if type = "BULLISH_FVG" then
    if currentPrice ≤ low then 0
    else if high ≤ currentPrice then 100
    else ((currentPrice - low) / gapRange) * 100
  else
    if high ≤ currentPrice then 0
    else if currentPrice ≤ low then 100
    else ((high - currentPrice) / gapRange) * 100

/-- Fill percentage of a gap record at a given current price. -/
def fvgFill (g : FVG) (p : ℚ) : ℚ := calcFVGFillPercentage g.type g.low g.high p

/-- The per-gap update in `find_fair_value_gaps`:
`fvg['fill_percentage'] = ...; fvg['filled'] = fvg['fill_percentage'] >= 100`. -/
def setFillStatus (g : FVG) (p : ℚ) : FVG :=
  let f := fvgFill g p
  { g with fill_percentage := f, filled := decide (100 ≤ f) }

/-- The candidate gap at interior position `i` (bars `i-1`, `i`, `i+1`):
a `BULLISH_FVG` when the previous low is above the next high, a
`BEARISH_FVG` when the previous high is below the next low, kept only when
the raw gap size reaches the threshold. -/
def gapAt (bars : List Bar) (thr : ℚ) (i : ℕ) : Option FVG :=
  let prev := nthBar bars (i - 1)
  let curr := nthBar bars i
  let next := nthBar bars (i + 1)
  if next.high < prev.low then
    let gapSize := prev.low - next.high
    if thr ≤ gapSize then
      some { type := "BULLISH_FVG", high := prev.low, low := next.high,
             gap_size := pyRound gapSize 2, timestamp := curr.ts,
             momentum_strength := calcFVGMomentum bars i "BULLISH",
             filled := false, fill_percentage := 0,
             created_prev := prev.ts, created_curr := curr.ts,
             created_next := next.ts, current_fill := 0 }
    else none
  else if prev.high < next.low then
    let gapSize := next.low - prev.high
    if thr ≤ gapSize then
      some { type := "BEARISH_FVG", high := next.low, low := prev.high,
             gap_size := pyRound gapSize 2, timestamp := curr.ts,
             momentum_strength := calcFVGMomentum bars i "BEARISH",
             filled := false, fill_percentage := 0,
             created_prev := prev.ts, created_curr := curr.ts,
             created_next := next.ts, current_fill := 0 }
    else none
  else none

/-- Minimum gap size: `atr.iloc[-1] * min_gap_size` with the default
`min_gap_size = 0.1` (every caller uses the default). -/
def minGapThreshold (bars : List Bar) : ℚ := atrLast bars * (1/10)

/-- The scan `for i in range(1, len(data) - 1)` collecting candidate gaps. -/
def rawFVGs (bars : List Bar) : List FVG :=
  (List.range' 1 (bars.length - 2)).filterMap (gapAt bars (minGapThreshold bars))

/-- The gaps with fill status recomputed against the last close, keeping the
unfilled ones (`[fvg for fvg in fvgs if not fvg['filled']]`). -/
def unfilledFVGs (bars : List Bar) : List FVG :=
  ((rawFVGs bars).map (fun g => setFillStatus g (lastClose bars))).filter
    (fun g => !g.filled)

/-- Ordering used by `unfilled_fvgs.sort(key=momentum_strength, reverse=True)`. -/
def fvgMomentumGE (a b : FVG) : Prop := b.momentum_strength ≤ a.momentum_strength

instance : DecidableRel fvgMomentumGE :=
  fun a b => inferInstanceAs (Decidable (b.momentum_strength ≤ a.momentum_strength))

instance : IsTotal FVG fvgMomentumGE :=
  ⟨fun a b => le_total b.momentum_strength a.momentum_strength⟩

instance : IsTrans FVG fvgMomentumGE :=
  ⟨fun _ _ _ h1 h2 => le_trans h2 h1⟩

/-- The unfilled gaps sorted by momentum strength, strongest first (Python's
stable descending sort; `List.insertionSort` with `fvgMomentumGE` is the same
stable order). -/
def sortedUnfilledFVGs (bars : List Bar) : List FVG :=
  (unfilledFVGs bars).insertionSort fvgMomentumGE

/-- `find_fair_value_gaps` (default `min_gap_size = 0.1`): empty below 3
bars by its own guard; empty below 14 bars because ta's ATR construction
raises and the enclosing `except` returns `[]` (see `atrLast`); otherwise
the last 5 entries (`[-5:]`) of the momentum-sorted unfilled gaps. -/
def findFairValueGaps (bars : List Bar) : List FVG :=
  if bars.length < 3 then []
  else if bars.length < 14 then []
  else pyTakeLast 5 (sortedUnfilledFVGs bars)

/-- Fill percentage of a bullish gap lies in [0, 100]. -/
theorem calcFillPct_bull_bounds (low high p : ℚ) (hg : low < high) :
    0 ≤ calcFVGFillPercentage "BULLISH_FVG" low high p ∧
      calcFVGFillPercentage "BULLISH_FVG" low high p ≤ 100 := by
  have hr : (0 : ℚ) < high - low := by linarith
  simp only [calcFVGFillPercentage, if_true]
  split_ifs with h1 h2
  · norm_num
  · norm_num
  · push_neg at h1 h2
    have h3 : (p - low) / (high - low) ≤ 1 := (div_le_one hr).mpr (by linarith)
    have h4 : (0 : ℚ) ≤ (p - low) / (high - low) :=
      div_nonneg (by linarith) (le_of_lt hr)
    constructor <;> nlinarith

/-- Fill percentage of a bearish gap lies in [0, 100]. -/
theorem calcFillPct_bear_bounds (low high p : ℚ) (hg : low < high) :
    0 ≤ calcFVGFillPercentage "BEARISH_FVG" low high p ∧
      calcFVGFillPercentage "BEARISH_FVG" low high p ≤ 100 := by
  have hr : (0 : ℚ) < high - low := by linarith
  simp only [calcFVGFillPercentage,
    if_neg (show ¬("BEARISH_FVG" : String) = "BULLISH_FVG" by decide)]
  split_ifs with h1 h2
  · norm_num
  · norm_num
  · push_neg at h1 h2
    have h3 : (high - p) / (high - low) ≤ 1 := (div_le_one hr).mpr (by linarith)
    have h4 : (0 : ℚ) ≤ (high - p) / (high - low) :=
      div_nonneg (by linarith) (le_of_lt hr)
    constructor <;> nlinarith

/-- Fill percentage of a bullish gap is monotone in the current price. -/
theorem calcFillPct_bull_mono (low high p1 p2 : ℚ) (hg : low < high) (h : p1 ≤ p2) :
    calcFVGFillPercentage "BULLISH_FVG" low high p1 ≤
      calcFVGFillPercentage "BULLISH_FVG" low high p2 := by
  have hr : (0 : ℚ) < high - low := by linarith
  simp only [calcFVGFillPercentage, if_true]
  split_ifs with h1 h2 h3 h4 h5 h6 h7 h8 <;> first
    | linarith
    | { have hd : (0 : ℚ) ≤ (p2 - low) / (high - low) :=
          div_nonneg (by linarith) hr.le
        nlinarith }
    | { have hd : (p1 - low) / (high - low) ≤ 1 :=
          (div_le_one hr).mpr (by linarith)
        nlinarith }
    | { have hd : (p1 - low) / (high - low) ≤ (p2 - low) / (high - low) :=
          (div_le_div_iff_of_pos_right hr).mpr (by linarith)
        nlinarith }

/-- Fill percentage of a bearish gap is antitone in the current price. -/
theorem calcFillPct_bear_anti (low high p1 p2 : ℚ) (hg : low < high) (h : p1 ≤ p2) :
    calcFVGFillPercentage "BEARISH_FVG" low high p2 ≤
      calcFVGFillPercentage "BEARISH_FVG" low high p1 := by
  have hr : (0 : ℚ) < high - low := by linarith
  simp only [calcFVGFillPercentage,
    if_neg (show ¬("BEARISH_FVG" : String) = "BULLISH_FVG" by decide)]
  split_ifs with h1 h2 h3 h4 h5 h6 h7 h8 <;> first
    | linarith
    | { have hd : (0 : ℚ) ≤ (high - p1) / (high - low) :=
          div_nonneg (by linarith) hr.le
        nlinarith }
    | { have hd : (high - p2) / (high - low) ≤ 1 :=
          (div_le_one hr).mpr (by linarith)
        nlinarith }
    | { have hd : (high - p2) / (high - low) ≤ (high - p1) / (high - low) :=
          (div_le_div_iff_of_pos_right hr).mpr (by linarith)
        nlinarith }

/-- C8: For every fair value gap (bullish or bearish, with a nonempty price
range, as every gap built by `find_fair_value_gaps` has) and every current
price, the computed fill percentage lies in [0, 100]; the `filled` flag set
by `find_fair_value_gaps` holds exactly when the fill percentage reaches
100; and the fill percentage is monotonically non-decreasing as the current
price moves further into the gap in the filling direction (upward through a
bullish gap, downward through a bearish gap). -/
theorem c8_fill_percentage_properties (g g' : FVG) (p q p1 p2 q1 q2 : ℚ)
    (hg : g.low < g.high) (hg' : g'.low < g'.high)
    (ht : g.type = "BULLISH_FVG") (ht' : g'.type = "BEARISH_FVG")
    (h12 : p1 ≤ p2) (h12' : q1 ≤ q2) :
    (0 ≤ fvgFill g p ∧ fvgFill g p ≤ 100) ∧
    (0 ≤ fvgFill g' q ∧ fvgFill g' q ≤ 100) ∧
    ((setFillStatus g p).filled = true ↔ 100 ≤ (setFillStatus g p).fill_percentage) ∧
    ((setFillStatus g' q).filled = true ↔ 100 ≤ (setFillStatus g' q).fill_percentage) ∧
    fvgFill g p1 ≤ fvgFill g p2 ∧
    fvgFill g' q2 ≤ fvgFill g' q1 := by
  have hb := calcFillPct_bull_bounds g.low g.high p hg
  have hs := calcFillPct_bear_bounds g'.low g'.high q hg'
  have hm := calcFillPct_bull_mono g.low g.high p1 p2 hg h12
  have ha := calcFillPct_bear_anti g'.low g'.high q1 q2 hg' h12'
  refine ⟨?_, ?_, ?_, ?_, ?_, ?_⟩
  · rw [fvgFill, ht]; exact hb
  · rw [fvgFill, ht']; exact hs
  · simp [setFillStatus]
  · simp [setFillStatus]
  · rw [fvgFill, fvgFill, ht]; exact hm
  · rw [fvgFill, fvgFill, ht']; exact ha

/-- Concrete bullish gap used by the c8 witness. -/
def c8BullGap : FVG :=
  { type := "BULLISH_FVG", high := 20, low := 10, gap_size := 10, timestamp := 0,
    momentum_strength := 50, filled := false, fill_percentage := 0,
    created_prev := 0, created_curr := 0, created_next := 0, current_fill := 0 }

/-- Concrete bearish gap used by the c8 witness. -/
def c8BearGap : FVG :=
  { type := "BEARISH_FVG", high := 40, low := 30, gap_size := 10, timestamp := 0,
    momentum_strength := 50, filled := false, fill_percentage := 0,
    created_prev := 0, created_curr := 0, created_next := 0, current_fill := 0 }

/-- Witness for c8 at the concrete bullish gap [10, 20], bearish gap [30, 40]
and concrete current prices. -/
theorem c8_fill_percentage_witness :
    (0 ≤ fvgFill c8BullGap 12 ∧ fvgFill c8BullGap 12 ≤ 100) ∧
    (0 ≤ fvgFill c8BearGap 35 ∧ fvgFill c8BearGap 35 ≤ 100) ∧
    ((setFillStatus c8BullGap 12).filled = true ↔
      100 ≤ (setFillStatus c8BullGap 12).fill_percentage) ∧
    ((setFillStatus c8BearGap 35).filled = true ↔
      100 ≤ (setFillStatus c8BearGap 35).fill_percentage) ∧
    fvgFill c8BullGap 11 ≤ fvgFill c8BullGap 14 ∧
    fvgFill c8BearGap 37 ≤ fvgFill c8BearGap 33 :=
  c8_fill_percentage_properties c8BullGap c8BearGap 12 35 11 14 33 37
    (by decide) (by decide) (by decide) (by decide) (by decide) (by decide)

/-- Bool form of the per-gap guarantees of `find_fair_value_gaps`: the gap
is not fully filled and its raw size reaches the ATR threshold. -/
def fvgOk (thr : ℚ) (g : FVG) : Bool :=
  !g.filled && decide (g.fill_percentage < 100) && decide (thr ≤ g.high - g.low)

/-- Bool check that momentum strength never increases along a gap list. -/
def momentumSortedDesc : List FVG → Bool
  | a :: b :: rest =>
      decide (b.momentum_strength ≤ a.momentum_strength) && momentumSortedDesc (b :: rest)
  | _ => true

/-- Every gap the scan emits has raw size at least the threshold. -/
theorem gapAt_eq_some (bars : List Bar) (thr : ℚ) (i : ℕ) (g : FVG)
    (h : gapAt bars thr i = some g) : thr ≤ g.high - g.low := by
  simp only [gapAt] at h
  split_ifs at h with h1 h2 h3 h4 <;>
    first
      | exact Option.noConfusion h
      | (injection h with h'; subst h'; first | simpa using h2 | simpa using h4)

/-- Elements of `unfilledFVGs` are unfilled, below 100% fill and at least
the threshold in size. -/
theorem mem_unfilledFVGs (bars : List Bar) (g : FVG) (h : g ∈ unfilledFVGs bars) :
    g.filled = false ∧ g.fill_percentage < 100 ∧
      minGapThreshold bars ≤ g.high - g.low := by
  unfold unfilledFVGs at h
  obtain ⟨hmem, hflt⟩ := List.mem_filter.mp h
  obtain ⟨g0, hg0, rfl⟩ := List.mem_map.mp hmem
  obtain ⟨i, _, hi⟩ := List.mem_filterMap.mp hg0
  have hsize := gapAt_eq_some bars _ i g0 hi
  have hf : (setFillStatus g0 (lastClose bars)).filled = false := by
    simpa using hflt
  have hnot : ¬ (100 ≤ fvgFill g0 (lastClose bars)) := by
    simpa only [setFillStatus, decide_eq_false_iff_not] using hf
  exact ⟨hf, not_le.mp hnot, hsize⟩

/-- Members of the returned gap list are members of the unfilled list. -/
theorem mem_findFairValueGaps (bars : List Bar) (g : FVG)
    (h : g ∈ findFairValueGaps bars) : g ∈ unfilledFVGs bars := by
  unfold findFairValueGaps at h
  split_ifs at h
  · exact absurd h (List.not_mem_nil g)
  · exact absurd h (List.not_mem_nil g)
  · exact (List.mem_insertionSort fvgMomentumGE).mp (List.mem_of_mem_drop h)

/-- The momentum-sorted unfilled list is pairwise non-increasing. -/
theorem sortedUnfilledFVGs_pairwise (bars : List Bar) :
    (sortedUnfilledFVGs bars).Pairwise fvgMomentumGE :=
  List.sorted_insertionSort fvgMomentumGE (unfilledFVGs bars)

/-- Pairwise non-increasing momentum gives the Bool chain check. -/
theorem momentumSortedDesc_of_pairwise :
    ∀ {l : List FVG}, l.Pairwise fvgMomentumGE → momentumSortedDesc l = true
  | [], _ => rfl
  | [_], _ => rfl
  | a :: b :: rest, h => by
    rw [List.pairwise_cons] at h
    simp only [momentumSortedDesc, Bool.and_eq_true, decide_eq_true_eq]
    exact ⟨h.1 b (List.mem_cons_self b rest),
      momentumSortedDesc_of_pairwise h.2⟩

/-- Amended C7: `find_fair_value_gaps` returns at most 5 gaps, each not
fully filled and of raw size at least 0.1 × the 14-period ATR, listed in
non-increasing momentum order; but the selection keeps the *tail* of the
momentum-descending sort — the LOWEST-momentum unfilled gaps — so every
dropped gap has momentum at least that of every returned gap (the
strongest gaps are the ones dropped when more than 5 are unfilled, and the
selection is not by recency). -/
theorem c7_fvg_selection (bars : List Bar) :
    (findFairValueGaps bars).length ≤ 5 ∧
    (findFairValueGaps bars).all (fvgOk (minGapThreshold bars)) = true ∧
    momentumSortedDesc (findFairValueGaps bars) = true ∧
    ((bars.length < 14 ∧ findFairValueGaps bars = []) ∨
      (sortedUnfilledFVGs bars =
        (sortedUnfilledFVGs bars).take ((sortedUnfilledFVGs bars).length - 5) ++
          findFairValueGaps bars ∧
       ((sortedUnfilledFVGs bars).take ((sortedUnfilledFVGs bars).length - 5)).all
         (fun a => (findFairValueGaps bars).all
           (fun g => decide (g.momentum_strength ≤ a.momentum_strength))) = true)) := by
  have hall : (findFairValueGaps bars).all (fvgOk (minGapThreshold bars)) = true := by
    rw [List.all_eq_true]
    intro g hg
    obtain ⟨h1, h2, h3⟩ := mem_unfilledFVGs bars g (mem_findFairValueGaps bars g hg)
    simp [fvgOk, h1, h2, h3]
  have hpw : (findFairValueGaps bars).Pairwise fvgMomentumGE := by
    unfold findFairValueGaps
    split_ifs
    · exact List.Pairwise.nil
    · exact List.Pairwise.nil
    · exact (sortedUnfilledFVGs_pairwise bars).sublist (List.drop_sublist _ _)
  have hlen : (findFairValueGaps bars).length ≤ 5 := by
    unfold findFairValueGaps
    split_ifs
    · simp
    · simp
    · unfold pyTakeLast
      rw [List.length_drop]
      omega
  refine ⟨hlen, hall, momentumSortedDesc_of_pairwise hpw, ?_⟩
  by_cases h14 : bars.length < 14
  · left
    refine ⟨h14, ?_⟩
    unfold findFairValueGaps
    by_cases h3 : bars.length < 3
    · rw [if_pos h3]
    · rw [if_neg h3, if_pos h14]
  · right
    have hg : findFairValueGaps bars = pyTakeLast 5 (sortedUnfilledFVGs bars) := by
      unfold findFairValueGaps
      rw [if_neg (by omega), if_neg (by omega)]
    constructor
    · rw [hg]
      unfold pyTakeLast
      exact (List.take_append_drop _ _).symm
    · rw [List.all_eq_true]
      intro a ha
      rw [List.all_eq_true]
      intro g hgmem
      have hsp := sortedUnfilledFVGs_pairwise bars
      rw [← List.take_append_drop ((sortedUnfilledFVGs bars).length - 5)
        (sortedUnfilledFVGs bars)] at hsp
      have hdom := (List.pairwise_append.mp hsp).2.2 a ha g
        (by rw [hg] at hgmem; exact hgmem)
      simpa [fvgMomentumGE] using hdom

/-- Full-body red candle (`open = high`, `close = low`) used by the concrete
counterexample series. -/
def redBar (ts : ℕ) (hi lo : ℚ) : Bar :=
  { ts := ts, open' := hi, high := hi, low := lo, close := lo, volume := 100 }

/-- Concrete 21-bar series: a descending staircase leaving ten momentum-0
down-gaps and, near the end, one small gap with momentum 100 that is the
most recent unfilled gap. -/
def c7Bars : List Bar :=
  [redBar 0 1000 980, redBar 3600 995 975, redBar 7200 990 970,
   redBar 10800 985 965, redBar 14400 960 940, redBar 18000 955 935,
   redBar 21600 950 930, redBar 25200 925 905, redBar 28800 920 900,
   redBar 32400 915 895, redBar 36000 890 870, redBar 39600 885 865,
   redBar 43200 880 860, redBar 46800 855 835, redBar 50400 850 830,
   redBar 54000 845 825, redBar 57600 820 800, redBar 61200 700 680,
   redBar 64800 810 690, redBar 68400 730 710,
   { ts := 72000, open' := 718, high := 718, low := 712, close := 715, volume := 100 }]

/-- Concrete 14-bar series with two qualifying, unfilled gaps. -/
def c9Bars : List Bar :=
  [redBar 0 1000 980, redBar 3600 995 975, redBar 7200 990 970,
   redBar 10800 985 965, redBar 14400 980 960, redBar 18000 975 955,
   redBar 21600 970 950, redBar 25200 945 925, redBar 28800 940 920,
   redBar 32400 935 915, redBar 36000 930 910, redBar 39600 925 905,
   redBar 43200 920 900, redBar 46800 915 895]

/-- Maximum of a rational list (0 for the empty list, never taken there). -/
def listMaxQ (l : List ℚ) : ℚ :=
  match l with
  | [] => 0
  | a :: r => r.foldl max a

/-- Minimum of a rational list (0 for the empty list, never taken there). -/
def listMinQ (l : List ℚ) : ℚ :=
  match l with
  | [] => 0
  | a :: r => r.foldl min a

/-- Maximum of a timestamp list. -/
def listMaxN (l : List ℕ) : ℕ := l.foldl max 0

/-- Minimum of a timestamp list (0 for the empty list). -/
def listMinN (l : List ℕ) : ℕ :=
  match l with
  | [] => 0
  | a :: r => r.foldl min a

/-- Python `int()` on a rational: truncation toward zero. -/
def ratTrunc (q : ℚ) : ℤ := q.num.tdiv (q.den : ℤ)

/-- pandas `High.rolling(window=2*s+1, center=True).max() == High` at
position `i`: true exactly at positions with a full centered window whose
high is the window maximum (edge windows are NaN and compare False). -/
def isSwingHigh (bars : List Bar) (s i : ℕ) : Bool :=
  decide (s ≤ i) && decide (i + s < bars.length) &&
    (List.range' (i - s) (2 * s + 1)).all
      (fun j => decide ((nthBar bars j).high ≤ (nthBar bars i).high))

/-- Centered rolling-minimum swing-low flag, mirroring `isSwingHigh`. -/
def isSwingLow (bars : List Bar) (s i : ℕ) : Bool :=
  decide (s ≤ i) && decide (i + s < bars.length) &&
    (List.range' (i - s) (2 * s + 1)).all
      (fun j => decide ((nthBar bars i).low ≤ (nthBar bars j).low))

/-- Number of consecutive strictly increasing neighbour pairs
(the `iloc[i] > iloc[i-1]` counting loops). -/
def countAdjIncr : List ℚ → ℕ
  | a :: b :: rest => (if a < b then 1 else 0) + countAdjIncr (b :: rest)
  | _ => 0

/-- Number of consecutive strictly decreasing neighbour pairs. -/
def countAdjDecr : List ℚ → ℕ
  | a :: b :: rest => (if b < a then 1 else 0) + countAdjDecr (b :: rest)
  | _ => 0

/-- Result dict of `identify_market_structure` (`structure'` models the
`structure` key, a Lean keyword).  The swing counts are only present on
the success path (`none` elsewhere). -/
structure MarketStructureResult where
  structure' : String
  strength : ℚ
  details : String
  swing_highs : Option ℕ
  swing_lows : Option ℕ
deriving DecidableEq, Repr

/-- `identify_market_structure`: swing detection over a centered window of
radius `min(10, len/4)`, vote counting over the last 4 swing highs/lows,
and classification BULLISH/BEARISH/RANGING with strength `min(votes*25,
100)`.  Below 20 bars it returns UNKNOWN with strength 0.  The `except`
path (also UNKNOWN/0) is unreachable in the embedding. -/
def identifyMarketStructure (bars : List Bar) : MarketStructureResult :=
  if bars.length < 20 then
    { structure' := "UNKNOWN", strength := 0, details := "Insufficient data",
      swing_highs := none, swing_lows := none }
  else
    let swingPeriod := min 10 (bars.length / 4)
    let sh := ((List.range bars.length).filter (isSwingHigh bars swingPeriod)).map
      (fun i => (nthBar bars i).high)
    let sl := ((List.range bars.length).filter (isSwingLow bars swingPeriod)).map
      (fun i => (nthBar bars i).low)
    if sh.length < 2 ∨ sl.length < 2 then
      { structure' := "RANGING", strength := 30, details := "Limited swing points",
        swing_highs := none, swing_lows := none }
    else
      let hh := countAdjIncr (pyTakeLast 4 sh)
      let hl := countAdjIncr (pyTakeLast 4 sl)
      let lh := countAdjDecr (pyTakeLast 4 sh)
      let ll := countAdjDecr (pyTakeLast 4 sl)
      let bullishScore := hh + hl
      let bearishScore := lh + ll
      if bearishScore < bullishScore ∧ 2 ≤ bullishScore then
        { structure' := "BULLISH", strength := min ((bullishScore : ℚ) * 25) 100,
          details := "HH: " ++ toString hh ++ ", HL: " ++ toString hl,
          swing_highs := some sh.length, swing_lows := some sl.length }
      else if bullishScore < bearishScore ∧ 2 ≤ bearishScore then
        { structure' := "BEARISH", strength := min ((bearishScore : ℚ) * 25) 100,
          details := "LH: " ++ toString lh ++ ", LL: " ++ toString ll,
          swing_highs := some sh.length, swing_lows := some sl.length }
      else
        { structure' := "RANGING", strength := 40, details := "Mixed signals",
          swing_highs := some sh.length, swing_lows := some sl.length }

/-- Candle body size, `abs(Close - Open)`. -/
def bodySize (b : Bar) : ℚ := |b.close - b.open'|

/-- Candle total range, `High - Low`. -/
def totalRange (b : Bar) : ℚ := b.high - b.low

/-- The source's `body_ratio` column, `body_size / total_range`.  pandas
gives NaN/±inf on a zero range; such a bar violates the OHLC invariant
(`high - low ≥ |close - open|` forces a zero body too, and 0/0 is NaN,
comparing False like the rational 0 here). -/
def bodyFrac (b : Bar) : ℚ := bodySize b / totalRange b

/-- pandas `Series.quantile(q)` (linear interpolation on the sorted
values). -/
def seriesQuantile (l : List ℚ) (q : ℚ) : ℚ :=
  let sorted := l.insertionSort (· ≤ ·)
  let n := sorted.length
  let h := q * ((n - 1 : ℕ) : ℚ)
  let f := ⌊h⌋.toNat
  let vf := sorted.getD f 0
  let vf1 := sorted.getD (f + 1) vf
  vf + (h - (f : ℚ)) * (vf1 - vf)

/-- One order block, mirroring the dict built in `find_order_blocks`
(`distance`/`proximity_score` are the keys `_get_active_order_blocks` adds
later; 0 until then). -/
structure OrderBlock where
  type : String
  high : ℚ
  low : ℚ
  open' : ℚ
  close : ℚ
  timestamp : ℕ
  displacement_candle : ℕ
  strength : ℚ
  tested : Bool
  distance : ℚ
  proximity_score : ℚ
deriving DecidableEq, Repr

/-- `_validate_order_block`.  The source subtracts two DatetimeIndex labels
(`displacement_idx - ob_idx` is a Timedelta) and compares against the ints
1 and 20; the embedding keeps the arithmetic literal on epoch-second
timestamps (bars of a real series sit more than 20 seconds apart and fail
the `time_diff > 20` test, exactly as the source's Timedelta comparison
raises `TypeError` and the `except` returns False). -/
def validateOrderBlock (bars : List Bar) (dispPos obPos : ℕ) (obType : String) : Bool :=
  let timeDiff := (nthBar bars dispPos).ts - (nthBar bars obPos).ts
  if timeDiff < 1 ∨ 20 < timeDiff then false
  else
    let dc := nthBar bars dispPos
    let oc := nthBar bars obPos
    let priceMove := if obType = "BULLISH" then dc.close - oc.high else oc.low - dc.close
    decide (totalRange oc * 2 < priceMove)

/-- `_calculate_ob_strength`: 50 base, +20 when the block's volume exceeds
1.5× its 20-bar rolling mean (the mean is NaN before 20 rows, comparing
False), +15 when its body ratio exceeds 0.7, +15 when the displacement
bar's body ratio exceeds 0.8, capped at 100. -/
def calcOBStrength (bars : List Bar) (obPos dispPos : ℕ) : ℚ :=
  let oc := nthBar bars obPos
  let dc := nthBar bars dispPos
  let volBonus : ℚ :=
    if 19 ≤ obPos then
      let avg := (((List.range' (obPos - 19) 20).map
        (fun j => (nthBar bars j).volume)).sum) / 20
      if avg * (3/2) < oc.volume then 20 else 0
    else 0
  let s := 50 + volBonus + (if (7 : ℚ)/10 < bodyFrac oc then (15 : ℚ) else 0)
    + (if (8 : ℚ)/10 < bodyFrac dc then (15 : ℚ) else 0)
  min s 100

/-- The candidate order block for the displacement candle at position `i`:
the last opposite-coloured candle among the 15 rows up to `i`
(`data.loc[:idx].tail(15)`), kept when `_validate_order_block` passes. -/
def orderBlockAt (bars : List Bar) (i : ℕ) : Option OrderBlock :=
  let candle := nthBar bars i
  let prevData := (List.range (i + 1)).drop (i + 1 - 15)
  if candle.open' < candle.close then
    match (prevData.filter
        (fun j => decide ((nthBar bars j).close < (nthBar bars j).open'))).getLast? with
    | none => none
    | some jb =>
        if validateOrderBlock bars i jb "BULLISH" then
          some { type := "BULLISH_OB", high := (nthBar bars jb).high,
                 low := (nthBar bars jb).low, open' := (nthBar bars jb).open',
                 close := (nthBar bars jb).close, timestamp := (nthBar bars jb).ts,
                 displacement_candle := (nthBar bars i).ts,
                 strength := calcOBStrength bars jb i, tested := false,
                 distance := 0, proximity_score := 0 }
        else none
  else
    match (prevData.filter
        (fun j => decide ((nthBar bars j).open' < (nthBar bars j).close))).getLast? with
    | none => none
    | some jb =>
        if validateOrderBlock bars i jb "BEARISH" then
          some { type := "BEARISH_OB", high := (nthBar bars jb).high,
                 low := (nthBar bars jb).low, open' := (nthBar bars jb).open',
                 close := (nthBar bars jb).close, timestamp := (nthBar bars jb).ts,
                 displacement_candle := (nthBar bars i).ts,
                 strength := calcOBStrength bars jb i, tested := false,
                 distance := 0, proximity_score := 0 }
        else none

/-- Ordering used by `order_blocks.sort(key=strength, reverse=True)`. -/
def obStrengthGE (a b : OrderBlock) : Prop := b.strength ≤ a.strength

instance : DecidableRel obStrengthGE :=
  fun a b => inferInstanceAs (Decidable (b.strength ≤ a.strength))

instance : IsTotal OrderBlock obStrengthGE :=
  ⟨fun a b => le_total b.strength a.strength⟩

instance : IsTrans OrderBlock obStrengthGE :=
  ⟨fun _ _ _ h1 h2 => le_trans h2 h1⟩

/-- `find_order_blocks` (default `lookback=50`, unused by the body): empty
below 20 bars; otherwise candidate blocks from the last 10 displacement
candles (body ratio above 0.6 and body size above the 70% quantile),
strongest 5 first. -/
def findOrderBlocks (bars : List Bar) : List OrderBlock :=
  if bars.length < 20 then []
  else
    let minBodySize := seriesQuantile (bars.map bodySize) (7/10)
    let dispIdx := (List.range bars.length).filter
      (fun i => decide ((6 : ℚ)/10 < bodyFrac (nthBar bars i)) &&
        decide (minBodySize < bodySize (nthBar bars i)))
    let obs := (pyTakeLast 10 dispIdx).filterMap (orderBlockAt bars)
    (obs.insertionSort obStrengthGE).take 5

/-- The volume-profile dict of `_calculate_volume_at_level` (`int()`
truncates toward zero). -/
structure VolumeProfile where
  total_volume : ℤ
  avg_volume : ℤ
  volume_strength : String
deriving DecidableEq, Repr

/-- One equal-price level found by `_find_equal_levels`. -/
structure EqualLevel where
  level : ℚ
  touches : ℕ
  timestamps : List ℕ
  strength : ℚ
  price_min : ℚ
  price_max : ℚ
deriving DecidableEq, Repr

/-- One liquidity pool, mirroring the dict built in `find_liquidity_pools`. -/
structure LiquidityPool where
  type : String
  level : ℚ
  touches : ℕ
  timestamps : List ℕ
  strength : ℚ
  volume_profile : VolumeProfile
  last_touch : ℕ
  swept : Bool
deriving DecidableEq, Repr

/-- One step of `_find_equal_levels`' outer loop at index `i`: collect the
unprocessed indices within tolerance of `prices[i]`, and when at least 2
touch, emit a level and mark them processed. -/
def findEqualLevelsStep (pts : List (ℕ × ℚ)) (tolerance : ℚ)
    (st : List ℕ × List EqualLevel) (i : ℕ) : List ℕ × List EqualLevel :=
  let processed := st.1
  let acc := st.2
  if i ∈ processed then st
  else
    let price := (pts.getD i (0, 0)).2
    let similar := (List.range pts.length).filter
      (fun j => decide (j ∉ processed) &&
        decide (|price - (pts.getD j (0, 0)).2| ≤ price * tolerance))
    if 2 ≤ similar.length then
      let lvlPrices := similar.map (fun j => (pts.getD j (0, 0)).2)
      let lvlTs := similar.map (fun j => (pts.getD j (0, 0)).1)
      let timeSpanHours := ((listMaxN lvlTs - listMinN lvlTs : ℕ) : ℚ) / 3600
      let strength := min (100 : ℚ)
        ((similar.length : ℚ) * 20 + min (timeSpanHours / 24) 10)
      (processed ++ similar,
        acc ++ [{ level := pyRound (listMean lvlPrices) 2,
                  touches := similar.length, timestamps := lvlTs,
                  strength := pyRound strength 1,
                  price_min := listMinQ lvlPrices, price_max := listMaxQ lvlPrices }])
    else st

/-- `_find_equal_levels` over a swing-price series given as
(timestamp, price) pairs. -/
def findEqualLevels (pts : List (ℕ × ℚ)) (tolerance : ℚ) : List EqualLevel :=
  if pts.length < 2 then []
  else ((List.range pts.length).foldl (findEqualLevelsStep pts tolerance) ([], [])).2

/-- `_calculate_volume_at_level` (the bars always carry a Volume column in
the embedding). -/
def calcVolumeAtLevel (bars : List Bar) (level : ℚ) (levelType : String) : VolumeProfile :=
  let tol := level * (1/1000)
  let touching := bars.filter (fun b =>
    if levelType = "HIGH" then
      decide (level - tol ≤ b.high) && decide (b.high ≤ level + tol)
    else
      decide (level - tol ≤ b.low) && decide (b.low ≤ level + tol))
  if touching.isEmpty then
    { total_volume := 0, avg_volume := 0, volume_strength := "LOW" }
  else
    let total := (touching.map (fun b => b.volume)).sum
    let avg := total / (touching.length : ℚ)
    let overallAvg := ((bars.map (fun b => b.volume)).sum) / (bars.length : ℚ)
    { total_volume := ratTrunc total, avg_volume := ratTrunc avg,
      volume_strength :=
        if overallAvg * (3/2) < avg then "HIGH"
        else if overallAvg * (6/5) < avg then "MEDIUM" else "LOW" }

/-- `_check_liquidity_swept`: price closed beyond the level by over 0.1%
after its last touch (`current_price` is passed by the source but unused). -/
def checkLiquiditySwept (poolType : String) (level : ℚ) (lastTouch : ℕ)
    (bars : List Bar) : Bool :=
  let recent := bars.filter (fun b => decide (lastTouch < b.ts))
  if recent.isEmpty then false
  else if poolType = "SELL_SIDE_LIQUIDITY" then
    decide (level * (1001/1000) < listMaxQ (recent.map (fun b => b.high)))
  else
    decide (listMinQ (recent.map (fun b => b.low)) < level * (999/1000))

/-- Ordering used by `active_pools.sort(key=strength, reverse=True)`. -/
def poolStrengthGE (a b : LiquidityPool) : Prop := b.strength ≤ a.strength

instance : DecidableRel poolStrengthGE :=
  fun a b => inferInstanceAs (Decidable (b.strength ≤ a.strength))

instance : IsTotal LiquidityPool poolStrengthGE :=
  ⟨fun a b => le_total b.strength a.strength⟩

instance : IsTrans LiquidityPool poolStrengthGE :=
  ⟨fun _ _ _ h1 h2 => le_trans h2 h1⟩

/-- `find_liquidity_pools` (default `tolerance=0.001`): empty below 30
bars; otherwise equal swing highs (sell-side) and equal swing lows
(buy-side) with volume profiles, sweep flags recomputed, unswept pools
ranked by strength, top 6. -/
def findLiquidityPools (bars : List Bar) : List LiquidityPool :=
  if bars.length < 30 then []
  else
    let sw := min 5 (bars.length / 10)
    let highPts := ((List.range bars.length).filter (isSwingHigh bars sw)).map
      (fun i => ((nthBar bars i).ts, (nthBar bars i).high))
    let lowPts := ((List.range bars.length).filter (isSwingLow bars sw)).map
      (fun i => ((nthBar bars i).ts, (nthBar bars i).low))
    let sellSide := (findEqualLevels highPts (1/1000)).map (fun e =>
      ({ type := "SELL_SIDE_LIQUIDITY", level := e.level, touches := e.touches,
         timestamps := e.timestamps, strength := e.strength,
         volume_profile := calcVolumeAtLevel bars e.level "HIGH",
         last_touch := e.timestamps.getLast?.getD 0, swept := false } : LiquidityPool))
    let buySide := (findEqualLevels lowPts (1/1000)).map (fun e =>
      ({ type := "BUY_SIDE_LIQUIDITY", level := e.level, touches := e.touches,
         timestamps := e.timestamps, strength := e.strength,
         volume_profile := calcVolumeAtLevel bars e.level "LOW",
         last_touch := e.timestamps.getLast?.getD 0, swept := false } : LiquidityPool))
    let pools := (sellSide ++ buySide).map (fun p =>
      { p with swept := checkLiquiditySwept p.type p.level p.last_touch bars })
    ((pools.filter (fun p => !p.swept)).insertionSort poolStrengthGE).take 6

set_option maxRecDepth 100000 in
unseal Rat.add Rat.mul Rat.sub Rat.inv in
/-- Counterexample to C7: on `c7Bars` there is an unfilled gap (the most
recent one) whose momentum strength is strictly above that of every
returned gap, yet it is not returned — `find_fair_value_gaps` keeps the
weakest five unfilled gaps, not the most-recent/strongest ones. -/
theorem c7_counterexample :
    ∃ g ∈ unfilledFVGs c7Bars,
      g ∉ findFairValueGaps c7Bars ∧
      (∀ k ∈ findFairValueGaps c7Bars, k.momentum_strength < g.momentum_strength) ∧
      (∀ k ∈ unfilledFVGs c7Bars, k.timestamp ≤ g.timestamp) := by decide

set_option maxRecDepth 100000 in
unseal Rat.add Rat.mul Rat.sub Rat.inv in
/-- Counterexample to C9: a 14-bar series (fewer than 20 bars) on which
`find_fair_value_gaps` returns a non-empty list. -/
theorem c9_counterexample :
    c9Bars.length = 14 ∧ c9Bars.length < 20 ∧ findFairValueGaps c9Bars ≠ [] := by
  decide

/-- Amended C9: for any bar series with fewer than 20 bars the structure
analyzer returns UNKNOWN with strength 0, and the order-block and
liquidity-pool detectors return empty lists; the fair-value-gap detector,
however, only requires 3 bars (and 14 for its ATR), so it is empty below 3
bars but can return gaps for 14-19 bar series (see the counterexample). -/
theorem c9_short_series_guards (bars : List Bar) (h : bars.length < 20) :
    identifyMarketStructure bars =
      { structure' := "UNKNOWN", strength := 0, details := "Insufficient data",
        swing_highs := none, swing_lows := none } ∧
    findOrderBlocks bars = [] ∧
    findLiquidityPools bars = [] ∧
    (bars.length < 3 → findFairValueGaps bars = []) := by
  refine ⟨?_, ?_, ?_, ?_⟩
  · unfold identifyMarketStructure
    rw [if_pos h]
  · unfold findOrderBlocks
    rw [if_pos h]
  · unfold findLiquidityPools
    rw [if_pos (by omega)]
  · intro h3
    unfold findFairValueGaps
    rw [if_pos h3]

/-- Witness for the amended C9 at the empty bar series. -/
theorem c9_short_series_witness :
    identifyMarketStructure ([] : List Bar) =
      { structure' := "UNKNOWN", strength := 0, details := "Insufficient data",
        swing_highs := none, swing_lows := none } ∧
    findOrderBlocks ([] : List Bar) = [] ∧
    findLiquidityPools ([] : List Bar) = [] ∧
    (([] : List Bar).length < 3 → findFairValueGaps ([] : List Bar) = []) :=
  c9_short_series_guards [] (by decide)

/-- Signal direction. -/
inductive Direction
  | BUY
  | SELL
  | HOLD
deriving DecidableEq, Repr

/-- Multi-timeframe bias label. -/
inductive Bias
  | BULLISH
  | BEARISH
  | NEUTRAL
deriving DecidableEq, Repr

/-- One entry of the `reasons` list.  Each constructor stands for one
distinct string the source appends; f-string numeric payloads are carried
as data (the rendered text adds nothing the claims read). -/
inductive Reason
  | bullishStructure (strength : ℚ)
  | bearishStructure (strength : ℚ)
  | priceAtBullishOB
  | priceAtBearishOB
  | priceInBullishFVG
  | priceInBearishFVG
  | emaBullish
  | emaBearish
  | rsiOversold
  | rsiOverbought
  | mtfBullishBias (strength : ℚ)
  | mtfBearishBias (strength : ℚ)
  | mtfNeutral
  | bearishMTFOpposesBullish
  | bullishMTFOpposesBearish
  | highVolume
  | neutralMTFReducedConfidence
  | opposingMTFReducedConfidence
  | poorRiskReward (rr : ℚ) (original : Direction)
  | holdVeryLowConfAfterRR
  | confTooLowForcedHold (confidence : ℚ)
  | marketDataUnavailable
  | usingFallbackAnalysis
deriving DecidableEq, Repr

/-- The indicator-dict keys the decision pipeline reads (`Option` models a
possibly-absent key; `volumeRel` models the source's volume-ratio key).
Keys no modelled consumer reads (bb levels, pivots, fib levels) are
omitted. -/
structure Indicators where
  sma_20 : Option ℚ := none
  sma_50 : Option ℚ := none
  ema_12 : Option ℚ := none
  ema_26 : Option ℚ := none
  macd : Option ℚ := none
  macd_signal : Option ℚ := none
  rsi_14 : Option ℚ := none
  atr_14 : Option ℚ := none
  volumeRel : Option ℚ := none
  trend_strength : Option ℚ := none
  momentum_strength : Option ℚ := none
  volatility_rank : Option ℚ := none
  adx_pos : Option ℚ := none
  adx_neg : Option ℚ := none
deriving DecidableEq, Repr

/-- `_get_minimal_indicators`: the fixed fallback subset (current price for
levels, 50 for oscillators, 0 for MACD, ATR defaulted to 1% of price);
only these keys are present.  On empty data the price falls back to
3280.0. -/
def minimalIndicators (bars : List Bar) : Indicators :=
  let price := if bars.isEmpty then 3280 else lastClose bars
  { sma_20 := some price, ema_12 := some price, rsi_14 := some 50,
    macd := some 0, macd_signal := some 0,
    atr_14 := some (price * (1/100)), volumeRel := some 1,
    trend_strength := some 50, momentum_strength := some 50,
    volatility_rank := some 50 }

/-- `calculate_comprehensive_indicators`: below 50 bars (and on any
computation failure) the minimal fallback; at 50+ bars the full
25-indicator bank.  The bank is the textbook indicator arithmetic the spec
explicitly does not re-specify, so it enters the embedding as a parameter:
every theorem about the engine is proved for EVERY indicator valuation,
which covers the real one. -/
def calcComprehensiveIndicators (bank : List Bar → Indicators)
    (bars : List Bar) : Indicators :=
  if bars.length < 50 then minimalIndicators bars else bank bars

/-- The multi-timeframe-bias dict. -/
structure MTFBias where
  overall_bias : Bias
  strength : ℚ
  details : List (String × ℚ)
deriving DecidableEq, Repr

/-- The dict `_calculate_signal_components` returns. -/
structure SignalData where
  signal_score : ℚ
  confluence_count : ℕ
  confluence_factors : List String
  reasons : List Reason
deriving DecidableEq, Repr

/-- Step 1 of `_make_final_signal_decision`: direction and raw confidence
from the score and the confluence count. -/
def scoreClassification (score : ℚ) (confluence : ℕ) : Direction × ℚ :=
  if 65 ≤ score ∧ 3 ≤ confluence then
    (.BUY, min (score + (confluence : ℚ) * 2) 95)
  else if score ≤ 35 ∧ 3 ≤ confluence then
    (.SELL, min ((100 - score) + (confluence : ℚ) * 2) 95)
  else if 60 ≤ score then (.BUY, min (score + (confluence : ℚ)) 85)
  else if score ≤ 40 then (.SELL, min ((100 - score) + (confluence : ℚ)) 85)
  else (.HOLD, 50)

/-- The MTF-bias confidence penalty (−15 on a neutral bias, −30 on an
opposing one) with its reason append; HOLD is exempt. -/
def mtfAdjust (direction : Direction) (confidence : ℚ) (mtf : MTFBias)
    (reasons : List Reason) : ℚ × List Reason :=
  if direction ≠ .HOLD then
    if mtf.overall_bias = .NEUTRAL then
      (confidence - 15, reasons ++ [.neutralMTFReducedConfidence])
    else if (direction = .BUY ∧ mtf.overall_bias = .BEARISH) ∨
        (direction = .SELL ∧ mtf.overall_bias = .BULLISH) then
      (confidence - 30, reasons ++ [.opposingMTFReducedConfidence])
    else (confidence, reasons)
  else (confidence, reasons)

/-- Pre-filter confidence: the classification confidence after the MTF
penalty, clamped to [0, 95] (`confidence = max(0, min(confidence, 95))`). -/
def preFilterConfidence (score : ℚ) (confluence : ℕ) (mtf : MTFBias) : ℚ :=
  let dc := scoreClassification score confluence
  max 0 (min (mtfAdjust dc.1 dc.2 mtf []).1 95)

/-- Effective ATR: the atr_14 key with default `price*0.01`, re-defaulted
to 1% of price when the stored value is None or zero. -/
def effectiveATR (price : ℚ) (atr14 : Option ℚ) : ℚ :=
  let atr := atr14.getD (price * (1/100))
  if atr = 0 then price * (1/100) else atr

/-- Trade levels (stop, target1, target2) around the current price:
∓1.5·ATR / +2·ATR / +3.5·ATR for BUY, mirrored for SELL, all equal to the
price for HOLD. -/
def tradeLevels (direction : Direction) (price atr : ℚ) : ℚ × ℚ × ℚ :=
  if direction = .BUY then
    (price - atr * (3/2), price + atr * 2, price + atr * (7/2))
  else if direction = .SELL then
    (price + atr * (3/2), price - atr * 2, price - atr * (7/2))
  else (price, price, price)

/-- Risk/reward of a directional signal: `reward/risk` rounded to 2
decimals, 0 when the risk is at most the 1e-5 de-minimis guard
(`if risk > 0.00001 else 0`). -/
def computedRiskReward (price stop tp1 : ℚ) : ℚ :=
  let risk := |price - stop|
  let reward := |tp1 - price|
  if 1/100000 < risk then pyRound (reward / risk) 2 else 0

/-- The terminal risk/reward filter: a directional signal whose computed
risk/reward is below MIN_RR_RATIO = 1.5 is forced to HOLD with confidence
reduced by 40 (floored at 0) and the reason recorded (plus a note when the
reduced confidence drops below 30). -/
def rrFilterStep (direction : Direction) (confidence rr : ℚ)
    (reasons : List Reason) : Direction × ℚ × List Reason :=
  if direction ≠ .HOLD ∧ rr < 3/2 then
    (Direction.HOLD, max 0 (confidence - 40),
      reasons ++ [Reason.poorRiskReward rr direction] ++
        (if max 0 (confidence - 40) < 30 then [Reason.holdVeryLowConfAfterRR] else []))
  else (direction, confidence, reasons)

/-- The confidence floor: a still-directional signal with confidence below
40 is forced to HOLD (confidence itself is not changed). -/
def confidenceFloorStep (direction : Direction) (confidence : ℚ)
    (reasons : List Reason) : Direction × List Reason :=
  if confidence < 40 ∧ direction ≠ .HOLD then
    (Direction.HOLD, reasons ++ [Reason.confTooLowForcedHold confidence])
  else (direction, reasons)

/-- The record `_make_final_signal_decision` returns (entry zone, levels
and confidence rounded exactly as at the source's return). -/
structure FinalSignal where
  direction : Direction
  confidence : ℚ
  entry_low : ℚ
  entry_high : ℚ
  stop_loss : ℚ
  tp1 : ℚ
  tp2 : ℚ
  risk_reward : ℚ
  reasons : List Reason
deriving DecidableEq, Repr

/-- `_make_final_signal_decision` (MIN_RR_RATIO = 1.5, MTF penalties 15
and 30): score classification, MTF confidence penalty, clamp to [0, 95],
ATR trade levels, the risk/reward filter and the confidence floor.  Its
`except` fallback (HOLD/50 at price 3280) is unreachable in the
embedding. -/
def makeFinalSignalDecision (sd : SignalData) (current_price_real : ℚ)
    (indicators_real : Indicators) (mtf_bias_real : MTFBias) : FinalSignal :=
  let dc := scoreClassification sd.signal_score sd.confluence_count
  let cr := mtfAdjust dc.1 dc.2 mtf_bias_real sd.reasons
  let confidence := max 0 (min cr.1 95)
  let atr := effectiveATR current_price_real indicators_real.atr_14
  let lv := tradeLevels dc.1 current_price_real atr
  let risk_reward :=
    if dc.1 ≠ .HOLD then computedRiskReward current_price_real lv.1 lv.2.1 else 0
  let ar := rrFilterStep dc.1 confidence risk_reward cr.2
  let fl := confidenceFloorStep ar.1 ar.2.1 ar.2.2
  { direction := fl.1, confidence := pyRound ar.2.1 1,
    entry_low := if dc.1 = .HOLD then pyRound current_price_real 2
      else pyRound (current_price_real * (999/1000)) 2,
    entry_high := if dc.1 = .HOLD then pyRound current_price_real 2
      else pyRound (current_price_real * (1001/1000)) 2,
    stop_loss := pyRound lv.1 2, tp1 := pyRound lv.2.1 2,
    tp2 := pyRound lv.2.2 2, risk_reward := risk_reward, reasons := fl.2 }

/-- `roundHalfEven` lands on the floor or the ceiling. -/
theorem roundHalfEven_bounds (q : ℚ) :
    ⌊q⌋ ≤ roundHalfEven q ∧ roundHalfEven q ≤ ⌊q⌋ + 1 := by
  simp only [roundHalfEven]
  split_ifs <;> omega

/-- `roundHalfEven` fixes integers. -/
theorem roundHalfEven_intCast (c : ℤ) : roundHalfEven (c : ℚ) = c := by
  simp only [roundHalfEven, Int.floor_intCast]
  norm_num

/-- `roundHalfEven` respects an integer upper bound. -/
theorem roundHalfEven_le_of_le (q : ℚ) (c : ℤ) (h : q ≤ (c : ℚ)) :
    roundHalfEven q ≤ c := by
  rcases eq_or_lt_of_le h with heq | hlt
  · rw [heq, roundHalfEven_intCast]
  · have h1 : ⌊q⌋ < c := Int.floor_lt.mpr hlt
    have h2 := (roundHalfEven_bounds q).2
    omega

/-- `roundHalfEven` preserves non-negativity. -/
theorem roundHalfEven_nonneg (q : ℚ) (h : 0 ≤ q) : 0 ≤ roundHalfEven q := by
  have h1 : (0 : ℤ) ≤ ⌊q⌋ := Int.floor_nonneg.mpr h
  have h2 := (roundHalfEven_bounds q).1
  omega

/-- `pyRound` keeps a value inside [0, c] for an integer cap c. -/
theorem pyRound_mem_Icc (q : ℚ) (n : ℕ) (c : ℤ) (h0 : 0 ≤ q)
    (hc : q ≤ (c : ℚ)) : 0 ≤ pyRound q n ∧ pyRound q n ≤ (c : ℚ) := by
  unfold pyRound
  have hpow : (0 : ℚ) < 10 ^ n := by positivity
  constructor
  · have h1 := roundHalfEven_nonneg (q * 10 ^ n) (by positivity)
    have h2 : (0 : ℚ) ≤ ((roundHalfEven (q * 10 ^ n) : ℤ) : ℚ) := by
      exact_mod_cast h1
    exact div_nonneg h2 hpow.le
  · have h1 : q * 10 ^ n ≤ ((c * 10 ^ n : ℤ) : ℚ) := by
      push_cast
      exact mul_le_mul_of_nonneg_right hc hpow.le
    have h2 := roundHalfEven_le_of_le (q * 10 ^ n) (c * 10 ^ n) h1
    have h3 : ((roundHalfEven (q * 10 ^ n) : ℤ) : ℚ) ≤ ((c * 10 ^ n : ℤ) : ℚ) := by
      exact_mod_cast h2
    calc ((roundHalfEven (q * 10 ^ n) : ℤ) : ℚ) / 10 ^ n
        ≤ ((c * 10 ^ n : ℤ) : ℚ) / 10 ^ n := by gcongr
      _ = (c : ℚ) := by push_cast; field_simp

/-- round(4/3, 2) = 1.33. -/
theorem pyRound_four_thirds : pyRound (4/3) 2 = 133/100 := by
  have hf : ⌊(4/3 * 10 ^ 2 : ℚ)⌋ = 133 := by
    rw [show (4/3 * 10 ^ 2 : ℚ) = 400/3 by norm_num]
    rw [Int.floor_eq_iff]
    norm_num
  simp only [pyRound, roundHalfEven]
  rw [hf]
  norm_num

/-- For BUY trade levels the risk/reward is exactly 1.33 whenever the risk
clears the de-minimis guard. -/
theorem computedRiskReward_buy_eq (p a : ℚ)
    (h : (1 : ℚ)/100000 < |a| * (3/2)) :
    computedRiskReward p (p - a * (3/2)) (p + a * 2) = 133/100 := by
  unfold computedRiskReward
  have h1 : |p - (p - a * (3/2))| = |a| * (3/2) := by
    rw [show p - (p - a * (3/2)) = a * (3/2) by ring, abs_mul]
    norm_num
  have h2 : |p + a * 2 - p| = |a| * 2 := by
    rw [show p + a * 2 - p = a * 2 by ring, abs_mul]
    norm_num
  rw [h1, h2, if_pos h]
  have ha : (0 : ℚ) < |a| := by nlinarith [abs_nonneg a]
  have h3 : |a| * 2 / (|a| * (3/2)) = 4/3 := by
    field_simp
    ring
  rw [h3, pyRound_four_thirds]

/-- For SELL trade levels the risk/reward is exactly 1.33 whenever the
risk clears the de-minimis guard. -/
theorem computedRiskReward_sell_eq (p a : ℚ)
    (h : (1 : ℚ)/100000 < |a| * (3/2)) :
    computedRiskReward p (p + a * (3/2)) (p - a * 2) = 133/100 := by
  unfold computedRiskReward
  have h1 : |p - (p + a * (3/2))| = |a| * (3/2) := by
    rw [show p - (p + a * (3/2)) = -(a * (3/2)) by ring, abs_neg, abs_mul]
    norm_num
  have h2 : |p - a * 2 - p| = |a| * 2 := by
    rw [show p - a * 2 - p = -(a * 2) by ring, abs_neg, abs_mul]
    norm_num
  rw [h1, h2, if_pos h]
  have ha : (0 : ℚ) < |a| := by nlinarith [abs_nonneg a]
  have h3 : |a| * 2 / (|a| * (3/2)) = 4/3 := by
    field_simp
    ring
  rw [h3, pyRound_four_thirds]

/-- BUY risk/reward is always below the 1.5 minimum. -/
theorem computedRiskReward_buy_lt (p a : ℚ) :
    computedRiskReward p (p - a * (3/2)) (p + a * 2) < 3/2 := by
  by_cases h : (1 : ℚ)/100000 < |a| * (3/2)
  · rw [computedRiskReward_buy_eq p a h]
    norm_num
  · unfold computedRiskReward
    have h1 : |p - (p - a * (3/2))| = |a| * (3/2) := by
      rw [show p - (p - a * (3/2)) = a * (3/2) by ring, abs_mul]
      norm_num
    rw [h1, if_neg h]
    norm_num

/-- SELL risk/reward is always below the 1.5 minimum. -/
theorem computedRiskReward_sell_lt (p a : ℚ) :
    computedRiskReward p (p + a * (3/2)) (p - a * 2) < 3/2 := by
  by_cases h : (1 : ℚ)/100000 < |a| * (3/2)
  · rw [computedRiskReward_sell_eq p a h]
    norm_num
  · unfold computedRiskReward
    have h1 : |p - (p + a * (3/2))| = |a| * (3/2) := by
      rw [show p - (p + a * (3/2)) = -(a * (3/2)) by ring, abs_neg, abs_mul]
      norm_num
    rw [h1, if_neg h]
    norm_num

/-- The penalised confidence of `mtfAdjust` does not depend on the reason
list. -/
theorem mtfAdjust_fst (d : Direction) (c : ℚ) (mtf : MTFBias)
    (rs rs2 : List Reason) : (mtfAdjust d c mtf rs).1 = (mtfAdjust d c mtf rs2).1 := by
  unfold mtfAdjust
  split_ifs <;> rfl

/-- The risk/reward filter keeps the confidence inside [0, 95]. -/
theorem rrFilterStep_confidence_bounds (d : Direction) (c rr : ℚ)
    (rs : List Reason) (h0 : 0 ≤ c) (h95 : c ≤ 95) :
    0 ≤ (rrFilterStep d c rr rs).2.1 ∧ (rrFilterStep d c rr rs).2.1 ≤ 95 := by
  unfold rrFilterStep
  split_ifs <;>
    first
      | exact ⟨h0, h95⟩
      | { constructor
          · show (0 : ℚ) ≤ max 0 (c - 40)
            exact le_max_left 0 _
          · show max (0 : ℚ) (c - 40) ≤ 95
            exact max_le (by norm_num) (by linarith) }

/-- Whatever the inputs, `_make_final_signal_decision` returns HOLD: the
levels pin `reward/risk` at 4/3, rounded to 1.33 (or zeroed by the
de-minimis guard), always below the 1.5 minimum, so every directional
classification is downgraded. -/
theorem makeFinalSignalDecision_direction_hold (sd : SignalData) (p : ℚ)
    (ind : Indicators) (mtf : MTFBias) :
    (makeFinalSignalDecision sd p ind mtf).direction = .HOLD := by
  simp only [makeFinalSignalDecision]
  rcases hdc : scoreClassification sd.signal_score sd.confluence_count with ⟨d, c⟩
  cases d
  · have hlt := computedRiskReward_buy_lt p (effectiveATR p ind.atr_14)
    simp [tradeLevels, rrFilterStep, confidenceFloorStep, hlt]
  · have hlt := computedRiskReward_sell_lt p (effectiveATR p ind.atr_14)
    simp [tradeLevels, rrFilterStep, confidenceFloorStep, hlt]
  · simp [rrFilterStep, confidenceFloorStep]

/-- Confidence bounds of the decision function. -/
theorem makeFinalSignalDecision_confidence_bounds (sd : SignalData) (p : ℚ)
    (ind : Indicators) (mtf : MTFBias) :
    0 ≤ (makeFinalSignalDecision sd p ind mtf).confidence ∧
    (makeFinalSignalDecision sd p ind mtf).confidence ≤ 95 := by
  have hgen : ∀ (d : Direction) (c rr : ℚ) (rs : List Reason), 0 ≤ c → c ≤ 95 →
      0 ≤ pyRound (rrFilterStep d c rr rs).2.1 1 ∧
        pyRound (rrFilterStep d c rr rs).2.1 1 ≤ 95 := by
    intro d c rr rs h0 h95
    obtain ⟨hb0, hb95⟩ := rrFilterStep_confidence_bounds d c rr rs h0 h95
    have hm := pyRound_mem_Icc (rrFilterStep d c rr rs).2.1 1 95 hb0
      (by exact_mod_cast hb95)
    exact ⟨hm.1, by exact_mod_cast hm.2⟩
  simp only [makeFinalSignalDecision]
  exact hgen _ _ _ _ (le_max_left 0 _) (max_le (by norm_num) (min_le_right _ _))

/-- C2: whenever the score/confluence classification yields BUY or SELL
but the computed risk/reward (reward over risk from the ATR trade levels,
rounded to two decimals, the value stored on the returned record) is below
the configured minimum 1.5, the final direction is forced to HOLD and the
returned confidence is the pre-filter confidence reduced by exactly 40,
clamped below at 0 (and displayed rounded to one decimal as at the
source's return), regardless of the classification. -/
theorem c2_rr_filter_forces_hold (sd : SignalData) (p : ℚ) (ind : Indicators)
    (mtf : MTFBias)
    (hdir : (scoreClassification sd.signal_score sd.confluence_count).1 ≠ .HOLD)
    (hrr : (makeFinalSignalDecision sd p ind mtf).risk_reward < 3/2) :
    (makeFinalSignalDecision sd p ind mtf).direction = .HOLD ∧
    (makeFinalSignalDecision sd p ind mtf).confidence =
      pyRound (max 0
        (preFilterConfidence sd.signal_score sd.confluence_count mtf - 40)) 1 := by
  have hpre : preFilterConfidence sd.signal_score sd.confluence_count mtf =
      max 0 (min (mtfAdjust (scoreClassification sd.signal_score sd.confluence_count).1
        (scoreClassification sd.signal_score sd.confluence_count).2 mtf sd.reasons).1 95) := by
    simp only [preFilterConfidence]
    rw [mtfAdjust_fst _ _ _ [] sd.reasons]
  simp only [makeFinalSignalDecision] at hrr ⊢
  rw [if_pos hdir] at hrr ⊢
  unfold rrFilterStep
  rw [if_pos ⟨hdir, hrr⟩]
  unfold confidenceFloorStep
  rw [if_neg (by simp)]
  exact ⟨rfl, by rw [hpre]⟩

/-- Concrete inputs for the c2 witness: the spec scenario of a score-80
setup with 5 confluence factors. -/
def c2SignalData : SignalData :=
  { signal_score := 80, confluence_count := 5, confluence_factors := [], reasons := [] }

/-- Indicator dict with a normal ATR for the c2/c10 witnesses. -/
def c2Ind : Indicators := { atr_14 := some 10 }

/-- Neutral multi-timeframe bias for the c2 witness. -/
def c2MTF : MTFBias := { overall_bias := .NEUTRAL, strength := 50, details := [] }

unseal Rat.add Rat.mul Rat.sub Rat.inv in
/-- Witness for c2: the concrete scenario is classified BUY, its 1.33
risk/reward fails the filter, and the returned record is HOLD with the
pre-filter confidence (90 − 15 neutral-MTF penalty = 75) reduced by 40. -/
theorem c2_rr_filter_witness :
    (makeFinalSignalDecision c2SignalData 3280 c2Ind c2MTF).direction = .HOLD ∧
    (makeFinalSignalDecision c2SignalData 3280 c2Ind c2MTF).confidence =
      pyRound (max 0
        (preFilterConfidence c2SignalData.signal_score c2SignalData.confluence_count c2MTF - 40)) 1 :=
  c2_rr_filter_forces_hold c2SignalData 3280 c2Ind c2MTF (by decide) (by decide)

/-- Levels and risk/reward of a BUY-classified decision (risk above the
de-minimis guard). -/
theorem makeFinal_buy_levels (sd : SignalData) (p : ℚ) (ind : Indicators)
    (mtf : MTFBias)
    (hb : (scoreClassification sd.signal_score sd.confluence_count).1 = .BUY)
    (ha : (1 : ℚ)/100000 < |effectiveATR p ind.atr_14| * (3/2)) :
    (makeFinalSignalDecision sd p ind mtf).risk_reward = 133/100 ∧
    (makeFinalSignalDecision sd p ind mtf).stop_loss =
      pyRound (p - effectiveATR p ind.atr_14 * (3/2)) 2 ∧
    (makeFinalSignalDecision sd p ind mtf).tp1 =
      pyRound (p + effectiveATR p ind.atr_14 * 2) 2 ∧
    (makeFinalSignalDecision sd p ind mtf).tp2 =
      pyRound (p + effectiveATR p ind.atr_14 * (7/2)) 2 := by
  simp only [makeFinalSignalDecision, hb]
  exact ⟨computedRiskReward_buy_eq p (effectiveATR p ind.atr_14) ha, rfl, rfl, rfl⟩

/-- Levels and risk/reward of a SELL-classified decision (risk above the
de-minimis guard). -/
theorem makeFinal_sell_levels (sd : SignalData) (p : ℚ) (ind : Indicators)
    (mtf : MTFBias)
    (hb : (scoreClassification sd.signal_score sd.confluence_count).1 = .SELL)
    (ha : (1 : ℚ)/100000 < |effectiveATR p ind.atr_14| * (3/2)) :
    (makeFinalSignalDecision sd p ind mtf).risk_reward = 133/100 ∧
    (makeFinalSignalDecision sd p ind mtf).stop_loss =
      pyRound (p + effectiveATR p ind.atr_14 * (3/2)) 2 ∧
    (makeFinalSignalDecision sd p ind mtf).tp1 =
      pyRound (p - effectiveATR p ind.atr_14 * 2) 2 ∧
    (makeFinalSignalDecision sd p ind mtf).tp2 =
      pyRound (p - effectiveATR p ind.atr_14 * (7/2)) 2 := by
  simp only [makeFinalSignalDecision, hb]
  exact ⟨computedRiskReward_sell_eq p (effectiveATR p ind.atr_14) ha, rfl, rfl, rfl⟩

/-- Levels and risk/reward of a natively-HOLD decision. -/
theorem makeFinal_hold_levels (sd : SignalData) (p : ℚ) (ind : Indicators)
    (mtf : MTFBias)
    (hh : (scoreClassification sd.signal_score sd.confluence_count).1 = .HOLD) :
    (makeFinalSignalDecision sd p ind mtf).risk_reward = 0 ∧
    (makeFinalSignalDecision sd p ind mtf).stop_loss = pyRound p 2 ∧
    (makeFinalSignalDecision sd p ind mtf).tp1 = pyRound p 2 ∧
    (makeFinalSignalDecision sd p ind mtf).tp2 = pyRound p 2 := by
  simp only [makeFinalSignalDecision, hh]
  exact ⟨rfl, rfl, rfl, rfl⟩

/-- Amended C10: a directional classification downgraded by the filter or
floor still carries the ATR-derived directional trade levels and the
failing risk/reward value (1.33, below 1.5 and nonzero, whenever the risk
clears the 1e-5 de-minimis guard), while a natively-HOLD classification
carries all trade levels equal to the (rounded) current price and
risk/reward 0.  The original "only a natively-HOLD classification" claim
additionally needs the de-minimis proviso: when the effective ATR is at
most 1/150000 the source zeroes risk_reward and the rounded levels
collapse onto the price even for a downgraded signal (see the
counterexample). -/
theorem c10_downgraded_hold_levels
    (sd1 sd2 : SignalData) (p1 p2 : ℚ) (i1 i2 : Indicators) (m1 m2 : MTFBias)
    (h1 : (scoreClassification sd1.signal_score sd1.confluence_count).1 ≠ .HOLD)
    (ha : (1 : ℚ)/100000 < |effectiveATR p1 i1.atr_14| * (3/2))
    (h2 : (scoreClassification sd2.signal_score sd2.confluence_count).1 = .HOLD) :
    ((makeFinalSignalDecision sd1 p1 i1 m1).direction = .HOLD ∧
     (makeFinalSignalDecision sd1 p1 i1 m1).risk_reward = 133/100 ∧
     (makeFinalSignalDecision sd1 p1 i1 m1).stop_loss =
       pyRound (if (scoreClassification sd1.signal_score sd1.confluence_count).1 = .BUY
         then p1 - effectiveATR p1 i1.atr_14 * (3/2)
         else p1 + effectiveATR p1 i1.atr_14 * (3/2)) 2 ∧
     (makeFinalSignalDecision sd1 p1 i1 m1).tp1 =
       pyRound (if (scoreClassification sd1.signal_score sd1.confluence_count).1 = .BUY
         then p1 + effectiveATR p1 i1.atr_14 * 2
         else p1 - effectiveATR p1 i1.atr_14 * 2) 2 ∧
     (makeFinalSignalDecision sd1 p1 i1 m1).tp2 =
       pyRound (if (scoreClassification sd1.signal_score sd1.confluence_count).1 = .BUY
         then p1 + effectiveATR p1 i1.atr_14 * (7/2)
         else p1 - effectiveATR p1 i1.atr_14 * (7/2)) 2) ∧
    ((makeFinalSignalDecision sd2 p2 i2 m2).direction = .HOLD ∧
     (makeFinalSignalDecision sd2 p2 i2 m2).risk_reward = 0 ∧
     (makeFinalSignalDecision sd2 p2 i2 m2).stop_loss = pyRound p2 2 ∧
     (makeFinalSignalDecision sd2 p2 i2 m2).tp1 = pyRound p2 2 ∧
     (makeFinalSignalDecision sd2 p2 i2 m2).tp2 = pyRound p2 2) := by
  constructor
  · rcases hcase : (scoreClassification sd1.signal_score sd1.confluence_count).1 with _ | _ | _
    · obtain ⟨hr, hs, ht1, ht2⟩ := makeFinal_buy_levels sd1 p1 i1 m1 hcase ha
      exact ⟨makeFinalSignalDecision_direction_hold sd1 p1 i1 m1, hr, hs, ht1, ht2⟩
    · obtain ⟨hr, hs, ht1, ht2⟩ := makeFinal_sell_levels sd1 p1 i1 m1 hcase ha
      exact ⟨makeFinalSignalDecision_direction_hold sd1 p1 i1 m1, hr, hs, ht1, ht2⟩
    · exact absurd hcase h1
  · obtain ⟨hr, hs, ht1, ht2⟩ := makeFinal_hold_levels sd2 p2 i2 m2 h2
    exact ⟨makeFinalSignalDecision_direction_hold sd2 p2 i2 m2, hr, hs, ht1, ht2⟩

/-- Natively-HOLD signal data (score 50) for the c10 witness. -/
def c10HoldSD : SignalData :=
  { signal_score := 50, confluence_count := 0, confluence_factors := [], reasons := [] }

/-- Bullish multi-timeframe bias for the c10 inputs. -/
def c10MTF : MTFBias := { overall_bias := .BULLISH, strength := 80, details := [] }

unseal Rat.add Rat.mul Rat.sub Rat.inv in
/-- Witness for the amended c10 at a concrete BUY-classified input
(score 80, 5 factors, ATR 10) and a concrete natively-HOLD input. -/
theorem c10_downgraded_hold_witness :
    ((makeFinalSignalDecision c2SignalData 3280 c2Ind c10MTF).direction = .HOLD ∧
     (makeFinalSignalDecision c2SignalData 3280 c2Ind c10MTF).risk_reward = 133/100 ∧
     (makeFinalSignalDecision c2SignalData 3280 c2Ind c10MTF).stop_loss =
       pyRound (if (scoreClassification c2SignalData.signal_score c2SignalData.confluence_count).1 = .BUY
         then 3280 - effectiveATR 3280 c2Ind.atr_14 * (3/2)
         else 3280 + effectiveATR 3280 c2Ind.atr_14 * (3/2)) 2 ∧
     (makeFinalSignalDecision c2SignalData 3280 c2Ind c10MTF).tp1 =
       pyRound (if (scoreClassification c2SignalData.signal_score c2SignalData.confluence_count).1 = .BUY
         then 3280 + effectiveATR 3280 c2Ind.atr_14 * 2
         else 3280 - effectiveATR 3280 c2Ind.atr_14 * 2) 2 ∧
     (makeFinalSignalDecision c2SignalData 3280 c2Ind c10MTF).tp2 =
       pyRound (if (scoreClassification c2SignalData.signal_score c2SignalData.confluence_count).1 = .BUY
         then 3280 + effectiveATR 3280 c2Ind.atr_14 * (7/2)
         else 3280 - effectiveATR 3280 c2Ind.atr_14 * (7/2)) 2) ∧
    ((makeFinalSignalDecision c10HoldSD 3000 c2Ind c10MTF).direction = .HOLD ∧
     (makeFinalSignalDecision c10HoldSD 3000 c2Ind c10MTF).risk_reward = 0 ∧
     (makeFinalSignalDecision c10HoldSD 3000 c2Ind c10MTF).stop_loss = pyRound 3000 2 ∧
     (makeFinalSignalDecision c10HoldSD 3000 c2Ind c10MTF).tp1 = pyRound 3000 2 ∧
     (makeFinalSignalDecision c10HoldSD 3000 c2Ind c10MTF).tp2 = pyRound 3000 2) :=
  c10_downgraded_hold_levels c2SignalData c10HoldSD 3280 3000 c2Ind c2Ind c10MTF c10MTF
    (by decide) (by decide) (by decide)

/-- Indicator dict with a vanishing ATR (1e-6) for the c10 counterexample. -/
def c10TinyInd : Indicators := { atr_14 := some (1/1000000) }

set_option maxRecDepth 100000 in
unseal Rat.add Rat.mul Rat.sub Rat.inv in
/-- Counterexample to C10: a BUY classification (score 80, 5 factors) with
effective ATR 1e-6 is downgraded to HOLD, yet its returned record has all
three trade levels equal to the (rounded) current price and risk_reward 0
— indistinguishable on those fields from a natively-HOLD classification,
refuting the "only a natively-HOLD classification" clause. -/
theorem c10_counterexample :
    (scoreClassification c2SignalData.signal_score c2SignalData.confluence_count).1 = .BUY ∧
    (makeFinalSignalDecision c2SignalData 3280 c10TinyInd c10MTF).direction = .HOLD ∧
    (makeFinalSignalDecision c2SignalData 3280 c10TinyInd c10MTF).stop_loss = 3280 ∧
    (makeFinalSignalDecision c2SignalData 3280 c10TinyInd c10MTF).tp1 = 3280 ∧
    (makeFinalSignalDecision c2SignalData 3280 c10TinyInd c10MTF).tp2 = 3280 ∧
    (makeFinalSignalDecision c2SignalData 3280 c10TinyInd c10MTF).risk_reward = 0 := by
  decide

/-- Per-timeframe bias score of `_get_multi_timeframe_bias`: last close
against the rolling min(20, len)-bar mean of closes; 60 plus the capped
scaled distance when above the mean, 40 minus the capped scaled distance
otherwise, clamped to [0, 100].  (The multiplier is 1000 — ten times the
percentage distance — and the additive bases are 60/40, not 50.) -/
def timeframeBiasScore (bars : List Bar) : ℚ :=
  let cs := bars.map (fun b => b.close)
  let sma20 := listMean (pyTakeLast (min 20 bars.length) cs)
  let price := lastClose bars
  let score := if sma20 < price then 60 + min (((price - sma20) / sma20) * 1000) 30
    else 40 - min (((sma20 - price) / sma20) * 1000) 30
  max 0 (min 100 score)

/-- Timeframe weights (higher timeframes weigh more; an unknown key
defaults to 1 via `weights.get(tf, 1)`). -/
def tfWeight (tf : String) : ℚ :=
  if tf = "1d" then 3 else if tf = "4h" then 5/2 else if tf = "1h" then 2
  else if tf = "15m" then 3/2 else if tf = "5m" then 1
  else if tf = "1m" then 1/2 else 1

/-- `_get_multi_timeframe_bias`: a score for every timeframe with at least
10 bars, weight-averaged; bias BULLISH above 60, BEARISH below 40, else
NEUTRAL; strength `round(|overall − 50| * 2, 1)`.  No scores at all give
NEUTRAL with strength 50.  The `except` path (the same NEUTRAL/50 shape)
only triggers on a zero mean (ZeroDivisionError), impossible for positive
closes. -/
def getMultiTimeframeBias (mtfData : List (String × List Bar)) : MTFBias :=
  let scores := (mtfData.filter (fun td => decide (10 ≤ td.2.length))).map
    (fun td => (td.1, timeframeBiasScore td.2))
  if scores.isEmpty then
    { overall_bias := .NEUTRAL, strength := 50, details := scores }
  else
    let weightedScore := (scores.map (fun sc => sc.2 * tfWeight sc.1)).sum
    let totalWeight := (scores.map (fun sc => tfWeight sc.1)).sum
    let overall := if 0 < totalWeight then weightedScore / totalWeight else 50
    { overall_bias :=
        if 60 < overall then Bias.BULLISH
        else if overall < 40 then Bias.BEARISH else Bias.NEUTRAL,
      strength := pyRound (|overall - 50| * 2) 1, details := scores }

/-- Modelled from the spec (claim C6 and spec section 4.6), for comparison
with the source's `timeframeBiasScore`: the claimed per-timeframe score,
50 plus the signed percentage distance of the last close from the rolling
mean, capped at ±30. -/
def specTimeframeBiasScore (bars : List Bar) : ℚ :=
  let cs := bars.map (fun b => b.close)
  let sma20 := listMean (pyTakeLast (min 20 bars.length) cs)
  let price := lastClose bars
  50 + max (-30) (min (((price - sma20) / sma20) * 100) 30)

/-- Ten bars whose closes are nine 1s followed by a 2 (mean 1.1, last
close 2, about 82% above the mean). -/
def c6Bars : List Bar :=
  ((List.range 9).map (fun i => ⟨3600 * i, 1, 1, 1, 1, 100⟩)) ++
    [⟨32400, 2, 2, 2, 2, 100⟩]

unseal Rat.add Rat.mul Rat.sub Rat.inv in
/-- Counterexample to C6: on `c6Bars` the source's per-timeframe score is
90 — outside the claimed [20, 80] range and different from the claimed
50-plus-capped-±30 formula, which gives 80 here. -/
theorem c6_counterexample :
    timeframeBiasScore c6Bars = 90 ∧
    specTimeframeBiasScore c6Bars = 80 ∧
    ¬(timeframeBiasScore c6Bars ≤ 80) ∧
    timeframeBiasScore c6Bars ≠ specTimeframeBiasScore c6Bars := by
  decide

/-- Amended C6: for every timeframe with at least 10 bars of positive
closes, the per-timeframe bias score is 60 plus the capped (≤30) scaled
distance above the rolling mean when the close is above it, and 40 minus
the capped scaled distance below otherwise — so every per-timeframe score
lies in [10, 40] ∪ [60, 90], not in [20, 80]. -/
theorem c6_timeframe_score_range (bars : List Bar) (hlen : 10 ≤ bars.length)
    (hpos : ∀ b ∈ bars, 0 < b.close) :
    (10 ≤ timeframeBiasScore bars ∧ timeframeBiasScore bars ≤ 40) ∨
    (60 ≤ timeframeBiasScore bars ∧ timeframeBiasScore bars ≤ 90) := by
  have hlen2 : 0 < (pyTakeLast (min 20 bars.length)
      (bars.map (fun b => b.close))).length := by
    unfold pyTakeLast
    rw [List.length_drop, List.length_map]
    omega
  have hclose : ∀ q ∈ pyTakeLast (min 20 bars.length)
      (bars.map (fun b => b.close)), 0 < q := by
    intro q hq
    have hq2 : q ∈ bars.map (fun b => b.close) := List.mem_of_mem_drop hq
    obtain ⟨b, hb, rfl⟩ := List.mem_map.mp hq2
    exact hpos b hb
  have hsma : 0 < listMean (pyTakeLast (min 20 bars.length)
      (bars.map (fun b => b.close))) := by
    unfold listMean
    apply div_pos
    · exact List.sum_pos _ hclose (List.ne_nil_of_length_pos hlen2)
    · exact_mod_cast hlen2
  simp only [timeframeBiasScore]
  set sma := listMean (pyTakeLast (min 20 bars.length)
    (bars.map (fun b => b.close))) with hsm
  set price := lastClose bars with hpr
  by_cases hcmp : sma < price
  · right
    rw [if_pos hcmp]
    have ht : 0 < ((price - sma) / sma) * 1000 :=
      mul_pos (div_pos (by linarith) hsma) (by norm_num)
    have hmin1 : min (((price - sma) / sma) * 1000) 30 ≤ 30 := min_le_right _ _
    have hmin2 : 0 < min (((price - sma) / sma) * 1000) 30 := lt_min ht (by norm_num)
    rw [min_eq_right (by linarith), max_eq_right (by linarith)]
    constructor <;> linarith
  · left
    rw [if_neg hcmp]
    push_neg at hcmp
    have ht : 0 ≤ ((sma - price) / sma) * 1000 :=
      mul_nonneg (div_nonneg (by linarith) hsma.le) (by norm_num)
    have hmin1 : min (((sma - price) / sma) * 1000) 30 ≤ 30 := min_le_right _ _
    have hmin2 : 0 ≤ min (((sma - price) / sma) * 1000) 30 := le_min ht (by norm_num)
    rw [min_eq_right (by linarith), max_eq_right (by linarith)]
    constructor <;> linarith

unseal Rat.add Rat.mul Rat.sub Rat.inv in
/-- Witness for the amended c6 at the concrete `c6Bars` (score 90, in the
upper band). -/
theorem c6_timeframe_score_witness :
    (10 ≤ timeframeBiasScore c6Bars ∧ timeframeBiasScore c6Bars ≤ 40) ∨
    (60 ≤ timeframeBiasScore c6Bars ∧ timeframeBiasScore c6Bars ≤ 90) :=
  c6_timeframe_score_range c6Bars (by decide) (by decide)

/-- Ordering used by
`active_obs.sort(key=(proximity_score, strength), reverse=True)`:
descending lexicographic on the key pair (stable). -/
def obProximityGE (a b : OrderBlock) : Prop :=
  b.proximity_score < a.proximity_score ∨
    (a.proximity_score = b.proximity_score ∧ b.strength ≤ a.strength)

instance : DecidableRel obProximityGE := fun a b =>
  inferInstanceAs (Decidable (_ ∨ _))

instance : IsTotal OrderBlock obProximityGE := ⟨by
  intro a b
  rcases lt_trichotomy a.proximity_score b.proximity_score with h | h | h
  · right
    left
    exact h
  · rcases le_total a.strength b.strength with hs | hs
    · right
      right
      exact ⟨h.symm, hs⟩
    · left
      right
      exact ⟨h, hs⟩
  · left
    left
    exact h⟩

instance : IsTrans OrderBlock obProximityGE := ⟨by
  intro a b c hab hbc
  rcases hab with h1 | ⟨h1e, h1s⟩ <;> rcases hbc with h2 | ⟨h2e, h2s⟩
  · left
    exact lt_trans h2 h1
  · left
    rw [← h2e]
    exact h1
  · left
    rw [h1e]
    exact h2
  · right
    exact ⟨h1e.trans h2e, le_trans h2s h1s⟩⟩

/-- `_get_active_order_blocks`: blocks whose range (with 0.1% tolerance)
contains the current price, annotated with distance and proximity score,
sorted descending by (proximity, strength), top 3. -/
def activeOrderBlocks (orderBlocks : List OrderBlock) (currentPrice : ℚ) :
    List OrderBlock :=
  let tolerance := currentPrice * (1/1000)
  let active := (orderBlocks.filter (fun ob =>
    decide (ob.low - tolerance ≤ currentPrice) &&
      decide (currentPrice ≤ ob.high + tolerance))).map (fun ob =>
    let distance := min |currentPrice - ob.low| |currentPrice - ob.high|
    { ob with
      distance := distance,
      proximity_score := max 0 (100 - distance / currentPrice * 10000) })
  (active.insertionSort obProximityGE).take 3

/-- Ordering used by
`active_fvgs.sort(key=(momentum_strength, 100 - current_fill), reverse=True)`. -/
def fvgActiveGE (a b : FVG) : Prop :=
  b.momentum_strength < a.momentum_strength ∨
    (a.momentum_strength = b.momentum_strength ∧
      100 - b.current_fill ≤ 100 - a.current_fill)

instance : DecidableRel fvgActiveGE := fun a b =>
  inferInstanceAs (Decidable (_ ∨ _))

instance : IsTotal FVG fvgActiveGE := ⟨by
  intro a b
  rcases lt_trichotomy a.momentum_strength b.momentum_strength with h | h | h
  · right
    left
    exact h
  · rcases le_total (100 - a.current_fill) (100 - b.current_fill) with hs | hs
    · right
      right
      exact ⟨h.symm, hs⟩
    · left
      right
      exact ⟨h, hs⟩
  · left
    left
    exact h⟩

instance : IsTrans FVG fvgActiveGE := ⟨by
  intro a b c hab hbc
  rcases hab with h1 | ⟨h1e, h1s⟩ <;> rcases hbc with h2 | ⟨h2e, h2s⟩
  · left
    exact lt_trans h2 h1
  · left
    rw [← h2e]
    exact h1
  · left
    rw [h1e]
    exact h2
  · right
    exact ⟨h1e.trans h2e, le_trans h2s h1s⟩⟩

/-- `_get_active_fvgs`: unfilled gaps whose range (with 0.05% tolerance)
contains the current price, annotated with the current fill, kept when
under 80% filled, sorted descending by (momentum, 100 − fill), top 2. -/
def activeFVGs (fvgs : List FVG) (currentPrice : ℚ) : List FVG :=
  let tolerance := currentPrice * (5/10000)
  let cands := (fvgs.filter (fun g => !g.filled &&
      decide (g.low - tolerance ≤ currentPrice) &&
      decide (currentPrice ≤ g.high + tolerance))).map
    (fun g => { g with current_fill := fvgFill g currentPrice })
  let active := cands.filter (fun g => decide (g.current_fill < 80))
  (active.insertionSort fvgActiveGE).take 2

/-- `_calculate_signal_components`: the confluence-scoring pipeline, from
the neutral 50 through market structure (±strength×0.2), active order
blocks (±min(strength×0.15, 15) each), active FVGs (±min(momentum×0.1,
10) each), EMA alignment (±8), MACD (±5), the RSI zones (+10/−10/+2), the
multi-timeframe bias (±strength×0.25), the ±20 strong-opposition
adjustment, and volume confirmation (+5/−3); score clamped to [0, 100],
confluence = distinct factor tags, reasons capped at 5.  (The liquidity
pools are passed by the source but never scored.)  The `except` path
(score 50, no factors) is unreachable in the embedding. -/
def calcSignalComponents (currentPrice : ℚ)
    (marketStructure : MarketStructureResult) (orderBlocks : List OrderBlock)
    (fvgs : List FVG) (liquidityPools : List LiquidityPool)
    (indicators : Indicators) (mtfBias : MTFBias) : SignalData :=
  let st0 : ℚ × List String × List Reason := (50, [], [])
  let st1 :=
    if marketStructure.structure' = "BULLISH" then
      (st0.1 + marketStructure.strength * (2/10),
        st0.2.1 ++ ["BULLISH_STRUCTURE"],
        st0.2.2 ++ [Reason.bullishStructure marketStructure.strength])
    else if marketStructure.structure' = "BEARISH" then
      (st0.1 - marketStructure.strength * (2/10),
        st0.2.1 ++ ["BEARISH_STRUCTURE"],
        st0.2.2 ++ [Reason.bearishStructure marketStructure.strength])
    else st0
  let st2 := (activeOrderBlocks orderBlocks currentPrice).foldl (fun st ob =>
    if ob.type = "BULLISH_OB" then
      (st.1 + min (ob.strength * (15/100)) 15,
        st.2.1 ++ ["BULLISH_ORDER_BLOCK"], st.2.2 ++ [Reason.priceAtBullishOB])
    else if ob.type = "BEARISH_OB" then
      (st.1 - min (ob.strength * (15/100)) 15,
        st.2.1 ++ ["BEARISH_ORDER_BLOCK"], st.2.2 ++ [Reason.priceAtBearishOB])
    else st) st1
  let st3 := (activeFVGs fvgs currentPrice).foldl (fun st g =>
    if g.type = "BULLISH_FVG" then
      (st.1 + min (g.momentum_strength * (1/10)) 10,
        st.2.1 ++ ["BULLISH_FVG"], st.2.2 ++ [Reason.priceInBullishFVG])
    else if g.type = "BEARISH_FVG" then
      (st.1 - min (g.momentum_strength * (1/10)) 10,
        st.2.1 ++ ["BEARISH_FVG"], st.2.2 ++ [Reason.priceInBearishFVG])
    else st) st2
  let st4 :=
    if indicators.ema_26.getD 0 < indicators.ema_12.getD 0 then
      (st3.1 + 8, st3.2.1 ++ ["EMA_BULLISH"], st3.2.2 ++ [Reason.emaBullish])
    else (st3.1 - 8, st3.2.1 ++ ["EMA_BEARISH"], st3.2.2 ++ [Reason.emaBearish])
  let st5 :=
    if indicators.macd_signal.getD 0 < indicators.macd.getD 0 then
      (st4.1 + 5, st4.2.1 ++ ["MACD_BULLISH"], st4.2.2)
    else (st4.1 - 5, st4.2.1 ++ ["MACD_BEARISH"], st4.2.2)
  let rsi := indicators.rsi_14.getD 50
  let st6 :=
    if rsi < 30 then
      (st5.1 + 10, st5.2.1 ++ ["RSI_OVERSOLD"], st5.2.2 ++ [Reason.rsiOversold])
    else if 70 < rsi then
      (st5.1 - 10, st5.2.1 ++ ["RSI_OVERBOUGHT"], st5.2.2 ++ [Reason.rsiOverbought])
    else if 40 < rsi ∧ rsi < 60 then (st5.1 + 2, st5.2.1, st5.2.2)
    else st5
  let st7 :=
    if mtfBias.overall_bias = .BULLISH then
      (st6.1 + mtfBias.strength * (25/100), st6.2.1 ++ ["MTF_BULLISH"],
        st6.2.2 ++ [Reason.mtfBullishBias mtfBias.strength])
    else if mtfBias.overall_bias = .BEARISH then
      (st6.1 - mtfBias.strength * (25/100), st6.2.1 ++ ["MTF_BEARISH"],
        st6.2.2 ++ [Reason.mtfBearishBias mtfBias.strength])
    else (st6.1, st6.2.1, st6.2.2 ++ [Reason.mtfNeutral])
  let st8 :=
    if 55 < st7.1 ∧ mtfBias.overall_bias = .BEARISH ∧ 60 < mtfBias.strength then
      (st7.1 - 20, st7.2.1, st7.2.2 ++ [Reason.bearishMTFOpposesBullish])
    else if st7.1 < 45 ∧ mtfBias.overall_bias = .BULLISH ∧ 60 < mtfBias.strength then
      (st7.1 + 20, st7.2.1, st7.2.2 ++ [Reason.bullishMTFOpposesBearish])
    else st7
  let volumeRel := indicators.volumeRel.getD 1
  let st9 :=
    if (3 : ℚ)/2 < volumeRel then
      (st8.1 + 5, st8.2.1 ++ ["HIGH_VOLUME"], st8.2.2 ++ [Reason.highVolume])
    else if volumeRel < 7/10 then
      (st8.1 - 3, st8.2.1 ++ ["LOW_VOLUME"], st8.2.2)
    else st8
  { signal_score := max 0 (min 100 st9.1),
    confluence_count := st9.2.1.eraseDups.length,
    confluence_factors := st9.2.1, reasons := st9.2.2.take 5 }

/-- `_get_trend_direction`: four binary votes (EMA, SMA, MACD, ADX). -/
def getTrendDirection (ind : Indicators) : String :=
  let votes := [decide (ind.ema_26.getD 0 < ind.ema_12.getD 0),
                decide (ind.sma_50.getD 0 < ind.sma_20.getD 0),
                decide (ind.macd_signal.getD 0 < ind.macd.getD 0),
                decide (ind.adx_neg.getD 0 < ind.adx_pos.getD 0)]
  let bullish := (votes.filter (fun v => v)).length
  let bearish := 4 - bullish
  if bearish < bullish then "BULLISH"
  else if bullish < bearish then "BEARISH"
  else "NEUTRAL"

/-- `_assess_signal_quality`: fixed (confidence, confluence) lookup. -/
def assessSignalQuality (confidence : ℚ) (confluenceCount : ℕ) : String :=
  if 85 ≤ confidence ∧ 5 ≤ confluenceCount then "EXCELLENT"
  else if 75 ≤ confidence ∧ 4 ≤ confluenceCount then "VERY_GOOD"
  else if 65 ≤ confidence ∧ 3 ≤ confluenceCount then "GOOD"
  else if 55 ≤ confidence ∧ 2 ≤ confluenceCount then "FAIR"
  else "POOR"

/-- `_get_trading_session` with the wall clock as minutes since midnight
UTC (the source compares datetime.time values; all session boundaries are
whole hours, so minute precision is exact).  Sessions are probed in the
source's dict order — SYDNEY (21:00-06:00, wrapping), TOKYO (00:00-09:00),
LONDON (08:00-17:00), NEW_YORK (13:00-22:00) — first match wins. -/
def tradingSession (now : ℕ) : String :=
  let m := now % 1440
  if 1260 ≤ m ∨ m ≤ 360 then "SYDNEY"
  else if m ≤ 540 then "TOKYO"
  else if 480 ≤ m ∧ m ≤ 1020 then "LONDON"
  else if 780 ≤ m ∧ m ≤ 1320 then "NEW_YORK"
  else "OFF_HOURS"

/-- `_classify_volatility`. -/
def classifyVolatility (volatilityRank : ℚ) : String :=
  if 80 < volatilityRank then "EXTREMELY_HIGH"
  else if 60 < volatilityRank then "HIGH"
  else if 40 < volatilityRank then "MEDIUM"
  else if 20 < volatilityRank then "LOW"
  else "EXTREMELY_LOW"

/-- `_classify_trend`. -/
def classifyTrend (trendStrength : ℚ) : String :=
  if 80 < trendStrength then "VERY_STRONG"
  else if 60 < trendStrength then "STRONG"
  else if 40 < trendStrength then "MODERATE"
  else if 20 < trendStrength then "WEAK"
  else "VERY_WEAK"

/-- The modelled subset of the response dict `generate_real_ict_signal`
builds: the keys the claims read (signal, confidence, price, the ICT
counts, the multi-timeframe block, trading levels, reasoning, quality,
market context and metadata).  Omitted keys (active order-block/FVG
listings, nearest liquidity, bb position, key_levels, indicators_count,
version) are pure functions of the same inputs with no clock dependence. -/
structure Response where
  signal : Direction
  confidence : ℚ
  current_price : ℚ
  market_structure : String
  structure_strength : ℚ
  order_blocks_count : ℕ
  fair_value_gaps : ℕ
  liquidity_pools : ℕ
  trend_direction : String
  overall_bias : Bias
  mtf_strength : ℚ
  timeframes_analyzed : List String
  primary_timeframe : String
  entry_low : ℚ
  entry_high : ℚ
  stop_loss : ℚ
  take_profit_1 : ℚ
  take_profit_2 : ℚ
  risk_reward_ratio : ℚ
  signal_reasoning : List Reason
  confluence_factors : ℕ
  signal_quality : String
  session : String
  volatility_environment : String
  trend_environment : String
  analysis_time : ℕ
  timeframe_used : String
  data_quality : String
deriving DecidableEq, Repr

/-- `_get_enhanced_fallback_signal`: HOLD at confidence 50, a synthetic
price of 3280 plus a time-of-day drift of ±10, empty analysis, reasons
[Market data unavailable, Using fallback analysis] and data_quality
FALLBACK_MODE.  (current_price is returned rounded; the level fields carry
the raw fallback price, as in the source.) -/
def enhancedFallbackSignal (now : ℕ) : Response :=
  let timeFactor : ℚ := ((now % 1440 : ℕ) : ℚ) / 1440
  let fallbackPrice := 3280 + (timeFactor - 1/2) * 20
  { signal := .HOLD, confidence := 50, current_price := pyRound fallbackPrice 2,
    market_structure := "UNKNOWN", structure_strength := 0,
    order_blocks_count := 0, fair_value_gaps := 0, liquidity_pools := 0,
    trend_direction := "NEUTRAL", overall_bias := .NEUTRAL, mtf_strength := 0,
    timeframes_analyzed := [], primary_timeframe := "FALLBACK",
    entry_low := fallbackPrice, entry_high := fallbackPrice,
    stop_loss := fallbackPrice, take_profit_1 := fallbackPrice,
    take_profit_2 := fallbackPrice, risk_reward_ratio := 0,
    signal_reasoning := [Reason.marketDataUnavailable, Reason.usingFallbackAnalysis],
    confluence_factors := 0, signal_quality := "POOR",
    session := tradingSession now, volatility_environment := "UNKNOWN",
    trend_environment := "UNKNOWN", analysis_time := now,
    timeframe_used := "FALLBACK", data_quality := "FALLBACK_MODE" }

/-- Dict lookup `mtf_data[tf]` / membership test over the timeframe dict
(an insertion-ordered association list). -/
def lookupTF (mtfData : List (String × List Bar)) (tf : String) :
    Option (List Bar) :=
  (mtfData.find? (fun td => td.1 == tf)).map (fun td => td.2)

/-- Primary-timeframe choice: 1h, else 15m, else the first key. -/
def primaryTimeframe (mtfData : List (String × List Bar)) : String :=
  if (lookupTF mtfData "1h").isSome then "1h"
  else if (lookupTF mtfData "15m").isSome then "15m"
  else (mtfData.headD ("", [])).1

/-- The primary timeframe's bar series. -/
def primaryData (mtfData : List (String × List Bar)) : List Bar :=
  (lookupTF mtfData (primaryTimeframe mtfData)).getD []

/-- `generate_real_ict_signal`, over the fetched timeframe dict (the
upstream fetch is the external I/O boundary) and the wall clock `now`
(minutes since midnight UTC, feeding both `datetime.now()` and
`datetime.utcnow()`).  `bank` is the 50+-bar indicator computation (see
`calcComprehensiveIndicators`).  With no data, or under 20 primary bars,
the fallback signal; the top-level `except` → fallback path is
unreachable in the total embedding. -/
def generateRealICTSignal (bank : List Bar → Indicators)
    (mtfData : List (String × List Bar)) (now : ℕ) : Response :=
  if mtfData.isEmpty then enhancedFallbackSignal now
  else
    let primary_tf := primaryTimeframe mtfData
    let main_data := primaryData mtfData
    if main_data.isEmpty ∨ main_data.length < 20 then enhancedFallbackSignal now
    else
      let current_price := lastClose main_data
      let market_structure := identifyMarketStructure main_data
      let order_blocks := findOrderBlocks main_data
      let fvgs := findFairValueGaps main_data
      let liquidity_pools := findLiquidityPools main_data
      let indicators := calcComprehensiveIndicators bank main_data
      let mtf_bias := getMultiTimeframeBias mtfData
      let signal_data := calcSignalComponents current_price market_structure
        order_blocks fvgs liquidity_pools indicators mtf_bias
      let final_signal :=
        makeFinalSignalDecision signal_data current_price indicators mtf_bias
      { signal := final_signal.direction, confidence := final_signal.confidence,
        current_price := pyRound current_price 2,
        market_structure := market_structure.structure',
        structure_strength := market_structure.strength,
        order_blocks_count := order_blocks.length,
        fair_value_gaps := fvgs.length,
        liquidity_pools := liquidity_pools.length,
        trend_direction := getTrendDirection indicators,
        overall_bias := mtf_bias.overall_bias,
        mtf_strength := mtf_bias.strength,
        timeframes_analyzed := mtfData.map (fun td => td.1),
        primary_timeframe := primary_tf,
        entry_low := final_signal.entry_low, entry_high := final_signal.entry_high,
        stop_loss := final_signal.stop_loss,
        take_profit_1 := final_signal.tp1, take_profit_2 := final_signal.tp2,
        risk_reward_ratio := final_signal.risk_reward,
        signal_reasoning := final_signal.reasons,
        confluence_factors := signal_data.confluence_count,
        signal_quality :=
          assessSignalQuality final_signal.confidence signal_data.confluence_count,
        session := tradingSession now,
        volatility_environment := classifyVolatility (indicators.volatility_rank.getD 50),
        trend_environment := classifyTrend (indicators.trend_strength.getD 50),
        analysis_time := now, timeframe_used := primary_tf,
        data_quality := "REAL_MARKET_DATA" }

/-- A concrete indicator bank for closed statements: the minimal-indicator
valuation applied unconditionally.  (Where it appears below the bank is
either never consulted — empty data — or the claim quantifies over every
bank anyway.) -/
def defaultBank : List Bar → Indicators := fun bars => minimalIndicators bars

/-- C1: whenever the produced record is directional (BUY or SELL), the
risk/reward and confidence gates both passed.  In this engine the claim
holds vacuously: the ATR-derived levels fix risk/reward at 1.33 < 1.5 (or
0 under the de-minimis risk guard), so the RR filter (or, failing that, the
confidence floor) downgrades every candidate and each returned signal is
HOLD (`makeFinalSignalDecision_direction_hold`); the left disjunct below
always holds. -/
theorem c1_directional_signal_gates (bank : List Bar → Indicators)
    (mtfData : List (String × List Bar)) (now : ℕ) :
    (generateRealICTSignal bank mtfData now).signal = Direction.HOLD ∨
    ((3 : ℚ)/2 ≤ (generateRealICTSignal bank mtfData now).risk_reward_ratio ∧
      (40 : ℚ) ≤ (generateRealICTSignal bank mtfData now).confidence) := by
  left
  simp only [generateRealICTSignal]
  split_ifs
  · rfl
  · rfl
  · exact makeFinalSignalDecision_direction_hold _ _ _ _

/-- C3: every produced record carries a confidence in [0, 95] and a signal
drawn from {BUY, SELL, HOLD}.  The fallback paths pin confidence at 50; the
real path clamps it inside `_make_final_signal_decision`
(`makeFinalSignalDecision_confidence_bounds`). -/
theorem c3_confidence_direction_bounds (bank : List Bar → Indicators)
    (mtfData : List (String × List Bar)) (now : ℕ) :
    (0 : ℚ) ≤ (generateRealICTSignal bank mtfData now).confidence ∧
    (generateRealICTSignal bank mtfData now).confidence ≤ 95 ∧
    ((generateRealICTSignal bank mtfData now).signal = Direction.BUY ∨
      (generateRealICTSignal bank mtfData now).signal = Direction.SELL ∨
      (generateRealICTSignal bank mtfData now).signal = Direction.HOLD) := by
  simp only [generateRealICTSignal]
  split_ifs
  · exact ⟨(by norm_num : (0:ℚ) ≤ 50), (by norm_num : (50:ℚ) ≤ 95),
      Or.inr (Or.inr rfl)⟩
  · exact ⟨(by norm_num : (0:ℚ) ≤ 50), (by norm_num : (50:ℚ) ≤ 95),
      Or.inr (Or.inr rfl)⟩
  · exact ⟨(makeFinalSignalDecision_confidence_bounds _ _ _ _).1,
      (makeFinalSignalDecision_confidence_bounds _ _ _ _).2,
      Or.inr (Or.inr (makeFinalSignalDecision_direction_hold _ _ _ _))⟩

/-- C4 counterexample: with no market data the record's data_quality key is
the string FALLBACK_MODE, not the FALLBACK the claim names (FALLBACK is the
timeframe metadata, not the quality marker). -/
theorem c4_counterexample :
    (generateRealICTSignal defaultBank [] 600).data_quality = "FALLBACK_MODE" ∧
    (generateRealICTSignal defaultBank [] 600).data_quality ≠ "FALLBACK" :=
  ⟨rfl, by decide⟩

/-- Amended C4: with no timeframe data at all the engine returns the
fully-formed fallback record — HOLD at confidence 50, data_quality
FALLBACK_MODE (the source's marker; the claim's literal FALLBACK appears
only as the timeframe metadata), and reasoning
[Market data unavailable, Using fallback analysis]. -/
theorem c4_fallback_signal_shape (bank : List Bar → Indicators) (now : ℕ) :
    (generateRealICTSignal bank [] now).signal = Direction.HOLD ∧
    (generateRealICTSignal bank [] now).confidence = 50 ∧
    (generateRealICTSignal bank [] now).data_quality = "FALLBACK_MODE" ∧
    (generateRealICTSignal bank [] now).signal_reasoning =
      [Reason.marketDataUnavailable, Reason.usingFallbackAnalysis] ∧
    (generateRealICTSignal bank [] now).timeframe_used = "FALLBACK" :=
  ⟨rfl, rfl, rfl, rfl, rfl⟩

/-- Timeframe dict for the C5 statements: a 21-bar 1h series. -/
def c5MTFData : List (String × List Bar) := [("1h", c7Bars)]

set_option maxRecDepth 100000 in
unseal Rat.add Rat.mul Rat.sub Rat.inv in
/-- C5 counterexample: the same bar series analysed at 10:00 UTC and at
18:00 UTC yields different records — the market_context.session field reads
the wall clock (LONDON vs NEW_YORK), as does analysis_time; the output is
not a function of the market data alone. -/
theorem c5_counterexample :
    (generateRealICTSignal defaultBank c5MTFData 600).session = "LONDON" ∧
    (generateRealICTSignal defaultBank c5MTFData 1080).session = "NEW_YORK" ∧
    generateRealICTSignal defaultBank c5MTFData 600 ≠
      generateRealICTSignal defaultBank c5MTFData 1080 := by
  refine ⟨rfl, rfl, fun h => ?_⟩
  have hs := congrArg Response.session h
  rw [show (generateRealICTSignal defaultBank c5MTFData 600).session =
      "LONDON" from rfl,
    show (generateRealICTSignal defaultBank c5MTFData 1080).session =
      "NEW_YORK" from rfl] at hs
  exact absurd hs (by decide)

/-- The modelled response without its two clock-derived fields
(market_context.session and analysis_time). -/
def stripClock (r : Response) :=
  (r.signal, r.confidence, r.current_price, r.market_structure,
   r.structure_strength, r.order_blocks_count, r.fair_value_gaps,
   r.liquidity_pools, r.trend_direction, r.overall_bias, r.mtf_strength,
   r.timeframes_analyzed, r.primary_timeframe, r.entry_low, r.entry_high,
   r.stop_loss, r.take_profit_1, r.take_profit_2, r.risk_reward_ratio,
   r.signal_reasoning, r.confluence_factors, r.signal_quality,
   r.volatility_environment, r.trend_environment, r.timeframe_used,
   r.data_quality)

/-- Amended C5: on the real-data path every modelled field other than the
trading session and analysis_time is a function of the bar data alone —
two invocations over identical series at different clock times agree on
all of them.  (The full records differ, per the counterexample, because
those two fields — and on the fallback path also the synthesized price —
read the wall clock.) -/
theorem c5_real_path_clock_independence (bank : List Bar → Indicators)
    (mtfData : List (String × List Bar)) (t1 t2 : ℕ) (hne : mtfData ≠ [])
    (h20 : 20 ≤ (primaryData mtfData).length) :
    stripClock (generateRealICTSignal bank mtfData t1) =
      stripClock (generateRealICTSignal bank mtfData t2) := by
  have h1 : ¬ mtfData.isEmpty = true := by
    simpa [List.isEmpty_iff] using hne
  have h2 : ¬ ((primaryData mtfData).isEmpty = true ∨
      (primaryData mtfData).length < 20) := by
    rintro (habs | habs)
    · rw [List.isEmpty_iff.mp habs] at h20
      simp at h20
    · omega
  simp only [generateRealICTSignal, if_neg h1, if_neg h2]
  rfl

set_option maxRecDepth 100000 in
unseal Rat.add Rat.mul Rat.sub Rat.inv in
/-- Witness for the amended C5 at the 21-bar series, 10:00 vs 18:00 UTC. -/
theorem c5_clock_independence_witness :
    stripClock (generateRealICTSignal defaultBank c5MTFData 600) =
      stripClock (generateRealICTSignal defaultBank c5MTFData 1080) :=
  c5_real_path_clock_independence defaultBank c5MTFData 600 1080
    (by decide) (by decide)

end ICT
